import Mathlib

/-!
# Verification of the cq2pyg B-Rep-to-graph converter

Shallow embedding of the `cq2pyg` Python package (modules `types.py`,
`geometry.py`, `topology.py`, `features.py`, `converter.py`, `__init__.py`)
and proofs about its data model and algorithms.

The OpenCASCADE geometry kernel is an external oracle: each topological
entity carries an oracle record exposing exactly the accessors the source
queries (type codes, parameters, pole/knot accessors, identity hash codes,
traversal lists, ancestor maps).  Python floats are modelled as rationals;
no claim under verification depends on floating-point rounding.
-/

set_option autoImplicit false

namespace Cq2pyg

/-! ## types.py -/

/-- `CurveType` from `types.py` (`IntEnum` over OpenCASCADE `GeomAbs_CurveType`). -/
inductive CurveType where
  | LINE | CIRCLE | ELLIPSE | HYPERBOLA | PARABOLA
  | BEZIER | BSPLINE | OFFSET | OTHER
  deriving DecidableEq, Repr

/-- The integer value of each `CurveType` member (`IntEnum` values 0..8). -/
def CurveType.toIdx : CurveType → Nat
  | .LINE => 0 | .CIRCLE => 1 | .ELLIPSE => 2 | .HYPERBOLA => 3 | .PARABOLA => 4
  | .BEZIER => 5 | .BSPLINE => 6 | .OFFSET => 7 | .OTHER => 8

/-- `SurfaceType` from `types.py` (`IntEnum` over OpenCASCADE `GeomAbs_SurfaceType`). -/
inductive SurfaceType where
  | PLANE | CYLINDER | CONE | SPHERE | TORUS
  | BEZIER | BSPLINE | REVOLUTION | EXTRUSION | OFFSET | OTHER
  deriving DecidableEq, Repr

/-- The integer value of each `SurfaceType` member (`IntEnum` values 0..10). -/
def SurfaceType.toIdx : SurfaceType → Nat
  | .PLANE => 0 | .CYLINDER => 1 | .CONE => 2 | .SPHERE => 3 | .TORUS => 4
  | .BEZIER => 5 | .BSPLINE => 6 | .REVOLUTION => 7 | .EXTRUSION => 8
  | .OFFSET => 9 | .OTHER => 10

/-- `NUM_CURVE_TYPES = len(CurveType)` from `types.py`. -/
def NUM_CURVE_TYPES : Nat := 9

/-- `NUM_SURFACE_TYPES = len(SurfaceType)` from `types.py`. -/
def NUM_SURFACE_TYPES : Nat := 11

/-- `VERTEX_FEATURE_DIM` from `types.py`. -/
def VERTEX_FEATURE_DIM : Nat := 3

/-- `CONTROL_POINT_FEATURE_DIM` from `types.py`. -/
def CONTROL_POINT_FEATURE_DIM : Nat := 4

/-- `EDGE_FEATURE_DIM = NUM_CURVE_TYPES + 1 + 1 + 1 + 2 + 10` from `types.py`. -/
def EDGE_FEATURE_DIM : Nat := NUM_CURVE_TYPES + 1 + 1 + 1 + 2 + 10

/-- `FACE_FEATURE_DIM = NUM_SURFACE_TYPES + 1 + 2 + 2 + 4 + 14` from `types.py`. -/
def FACE_FEATURE_DIM : Nat := NUM_SURFACE_TYPES + 1 + 2 + 2 + 4 + 14

/-! ## The geometry-kernel oracle

The source builds a `BRepAdaptor_Curve` / `BRepAdaptor_Surface` around each
entity and queries accessors.  `CurveOracle` / `SurfaceOracle` record the
answers of every accessor the source can call.  Pole, weight, knot and
multiplicity accessors are 1-based, exactly as in OpenCASCADE. -/

/-- Oracle answers for one edge: `BRepAdaptor_Curve` accessors plus the
`TopoDS_Edge.Orientation()` code (0 is `TopAbs_FORWARD`). -/
structure CurveOracle where
  typeCode : Nat
  orientationCode : Nat
  firstParameter : ℚ
  lastParameter : ℚ
  isClosed : Bool
  lineDirection : ℚ × ℚ × ℚ
  circleCenter : ℚ × ℚ × ℚ
  circleAxisDir : ℚ × ℚ × ℚ
  circleRadius : ℚ
  ellipseCenter : ℚ × ℚ × ℚ
  ellipseAxisDir : ℚ × ℚ × ℚ
  ellipseMajorRadius : ℚ
  ellipseMinorRadius : ℚ
  bsplineDegree : Nat
  bsplineNbKnots : Nat
  bsplineKnot : Nat → ℚ
  bsplineMult : Nat → Nat
  bsplineIsRat : Bool
  bsplineNbPoles : Nat
  bsplinePole : Nat → ℚ × ℚ × ℚ
  bsplineWeight : Nat → ℚ
  bezierDegree : Nat
  bezierIsRat : Bool
  bezierNbPoles : Nat
  bezierPole : Nat → ℚ × ℚ × ℚ
  bezierWeight : Nat → ℚ

/-- Oracle answers for one face: `BRepAdaptor_Surface` accessors plus the
`TopoDS_Face.Orientation()` code (0 is `TopAbs_FORWARD`). -/
structure SurfaceOracle where
  typeCode : Nat
  orientationCode : Nat
  firstUParameter : ℚ
  lastUParameter : ℚ
  firstVParameter : ℚ
  lastVParameter : ℚ
  isUClosed : Bool
  isVClosed : Bool
  planeAxisDir : ℚ × ℚ × ℚ
  planeLocation : ℚ × ℚ × ℚ
  cylinderAxisDir : ℚ × ℚ × ℚ
  cylinderLocation : ℚ × ℚ × ℚ
  cylinderRadius : ℚ
  coneAxisDir : ℚ × ℚ × ℚ
  coneLocation : ℚ × ℚ × ℚ
  coneRefRadius : ℚ
  coneSemiAngle : ℚ
  spherePositionDir : ℚ × ℚ × ℚ
  sphereLocation : ℚ × ℚ × ℚ
  sphereRadius : ℚ
  torusAxisDir : ℚ × ℚ × ℚ
  torusLocation : ℚ × ℚ × ℚ
  torusMajorRadius : ℚ
  torusMinorRadius : ℚ
  bsplineUDegree : Nat
  bsplineVDegree : Nat
  bsplineNbUKnots : Nat
  bsplineUKnot : Nat → ℚ
  bsplineUMult : Nat → Nat
  bsplineNbVKnots : Nat
  bsplineVKnot : Nat → ℚ
  bsplineVMult : Nat → Nat
  bsplineIsURat : Bool
  bsplineIsVRat : Bool
  bsplineNbUPoles : Nat
  bsplineNbVPoles : Nat
  bsplinePole : Nat → Nat → ℚ × ℚ × ℚ
  bsplineWeight : Nat → Nat → ℚ
  bezierUDegree : Nat
  bezierVDegree : Nat
  bezierIsURat : Bool
  bezierIsVRat : Bool
  bezierNbUPoles : Nat
  bezierNbVPoles : Nat
  bezierPole : Nat → Nat → ℚ × ℚ × ℚ
  bezierWeight : Nat → Nat → ℚ

/-! ## geometry.py : descriptor records -/

/-- `VertexGeometry` dataclass from `geometry.py`. -/
structure VertexGeometry where
  x : ℚ
  y : ℚ
  z : ℚ
  deriving DecidableEq, Repr

/-- `ControlPoint` dataclass from `geometry.py`.  `index` is the Python tuple:
a 1-element list for curve-owned points, a 2-element list for surface-owned. -/
structure ControlPoint where
  x : ℚ
  y : ℚ
  z : ℚ
  weight : ℚ
  index : List Nat
  deriving DecidableEq, Repr

/-- `EdgeGeometry` dataclass from `geometry.py` (optional fields default `None`). -/
structure EdgeGeometry where
  curve_type : CurveType
  orientation : Int
  degree : Nat
  is_closed : Bool
  t_min : ℚ
  t_max : ℚ
  line_direction : Option (ℚ × ℚ × ℚ) := none
  center : Option (ℚ × ℚ × ℚ) := none
  axis : Option (ℚ × ℚ × ℚ) := none
  radius : Option ℚ := none
  minor_radius : Option ℚ := none
  knots : Option (List ℚ) := none
  multiplicities : Option (List Nat) := none
  control_points : Option (List ControlPoint) := none
  deriving DecidableEq, Repr

/-- `FaceGeometry` dataclass from `geometry.py` (optional fields default `None`). -/
structure FaceGeometry where
  surface_type : SurfaceType
  orientation : Int
  u_degree : Nat
  v_degree : Nat
  is_u_closed : Bool
  is_v_closed : Bool
  u_min : ℚ
  u_max : ℚ
  v_min : ℚ
  v_max : ℚ
  plane_normal : Option (ℚ × ℚ × ℚ) := none
  plane_origin : Option (ℚ × ℚ × ℚ) := none
  axis_direction : Option (ℚ × ℚ × ℚ) := none
  axis_origin : Option (ℚ × ℚ × ℚ) := none
  radius : Option ℚ := none
  radius2 : Option ℚ := none
  half_angle : Option ℚ := none
  u_knots : Option (List ℚ) := none
  v_knots : Option (List ℚ) := none
  u_multiplicities : Option (List Nat) := none
  v_multiplicities : Option (List Nat) := none
  control_points : Option (List ControlPoint) := none
  deriving DecidableEq, Repr

/-! ## geometry.py : extraction -/

/-- `CURVE_TYPE_MAP` from `geometry.py`: the `GeomAbs_CurveType` codes it has
keys for (`GeomAbs_Line = 0` .. `GeomAbs_OtherCurve = 8`). -/
def CURVE_TYPE_MAP : Nat → Option CurveType
  | 0 => some .LINE
  | 1 => some .CIRCLE
  | 2 => some .ELLIPSE
  | 3 => some .HYPERBOLA
  | 4 => some .PARABOLA
  | 5 => some .BEZIER
  | 6 => some .BSPLINE
  | 7 => some .OFFSET
  | 8 => some .OTHER
  | _ => none

/-- `SURFACE_TYPE_MAP` from `geometry.py` (`GeomAbs_Plane = 0` ..
`GeomAbs_OtherSurface = 10`). -/
def SURFACE_TYPE_MAP : Nat → Option SurfaceType
  | 0 => some .PLANE
  | 1 => some .CYLINDER
  | 2 => some .CONE
  | 3 => some .SPHERE
  | 4 => some .TORUS
  | 5 => some .BEZIER
  | 6 => some .BSPLINE
  | 7 => some .REVOLUTION
  | 8 => some .EXTRUSION
  | 9 => some .OFFSET
  | 10 => some .OTHER
  | _ => none

/-- `extract_edge_geometry` from `geometry.py`.  The Python
`CURVE_TYPE_MAP.get(occ_type, CurveType.OTHER)` is `(CURVE_TYPE_MAP c).getD .OTHER`;
the `if/elif` chain on `curve_type` is the `match`; 1-based `for i in
range(1, Nb+1)` loops become maps over `List.range` with `i+1`. -/
def extract_edge_geometry (o : CurveOracle) : EdgeGeometry :=
  let curve_type := (CURVE_TYPE_MAP o.typeCode).getD CurveType.OTHER
  let orientation : Int := if o.orientationCode = 0 then 1 else -1
  let base : EdgeGeometry :=
    { curve_type := curve_type
      orientation := orientation
      degree := 1
      is_closed := o.isClosed
      t_min := o.firstParameter
      t_max := o.lastParameter }
  match curve_type with
  | .LINE =>
      { base with
        degree := 1
        line_direction := some o.lineDirection }
  | .CIRCLE =>
      { base with
        degree := 2
        center := some o.circleCenter
        axis := some o.circleAxisDir
        radius := some o.circleRadius }
  | .ELLIPSE =>
      { base with
        degree := 2
        center := some o.ellipseCenter
        axis := some o.ellipseAxisDir
        radius := some o.ellipseMajorRadius
        minor_radius := some o.ellipseMinorRadius }
  | .BSPLINE =>
      { base with
        degree := o.bsplineDegree
        knots := some ((List.range o.bsplineNbKnots).map (fun i => o.bsplineKnot (i + 1)))
        multiplicities := some ((List.range o.bsplineNbKnots).map (fun i => o.bsplineMult (i + 1)))
        control_points := some ((List.range o.bsplineNbPoles).map (fun i =>
          { x := (o.bsplinePole (i + 1)).1
            y := (o.bsplinePole (i + 1)).2.1
            z := (o.bsplinePole (i + 1)).2.2
            weight := if o.bsplineIsRat then o.bsplineWeight (i + 1) else 1
            index := [i] })) }
  | .BEZIER =>
      { base with
        degree := o.bezierDegree
        control_points := some ((List.range o.bezierNbPoles).map (fun i =>
          { x := (o.bezierPole (i + 1)).1
            y := (o.bezierPole (i + 1)).2.1
            z := (o.bezierPole (i + 1)).2.2
            weight := if o.bezierIsRat then o.bezierWeight (i + 1) else 1
            index := [i] })) }
  | _ => base

/-- `extract_face_geometry` from `geometry.py`.  The nested pole loops
(`for ui in range(1, NbU+1): for vi in range(1, NbV+1)`) flatten the grid
row-major over `(u, v)` with 0-based `index = (ui-1, vi-1)`. -/
def extract_face_geometry (o : SurfaceOracle) : FaceGeometry :=
  let surface_type := (SURFACE_TYPE_MAP o.typeCode).getD SurfaceType.OTHER
  let orientation : Int := if o.orientationCode = 0 then 1 else -1
  let base : FaceGeometry :=
    { surface_type := surface_type
      orientation := orientation
      u_degree := 1
      v_degree := 1
      is_u_closed := o.isUClosed
      is_v_closed := o.isVClosed
      u_min := o.firstUParameter
      u_max := o.lastUParameter
      v_min := o.firstVParameter
      v_max := o.lastVParameter }
  match surface_type with
  | .PLANE =>
      { base with
        u_degree := 1
        v_degree := 1
        plane_normal := some o.planeAxisDir
        plane_origin := some o.planeLocation }
  | .CYLINDER =>
      { base with
        u_degree := 2
        v_degree := 1
        axis_direction := some o.cylinderAxisDir
        axis_origin := some o.cylinderLocation
        radius := some o.cylinderRadius }
  | .CONE =>
      { base with
        u_degree := 2
        v_degree := 1
        axis_direction := some o.coneAxisDir
        axis_origin := some o.coneLocation
        radius := some o.coneRefRadius
        half_angle := some o.coneSemiAngle }
  | .SPHERE =>
      { base with
        u_degree := 2
        v_degree := 2
        axis_direction := some o.spherePositionDir
        axis_origin := some o.sphereLocation
        radius := some o.sphereRadius }
  | .TORUS =>
      { base with
        u_degree := 2
        v_degree := 2
        axis_direction := some o.torusAxisDir
        axis_origin := some o.torusLocation
        radius := some o.torusMajorRadius
        radius2 := some o.torusMinorRadius }
  | .BSPLINE =>
      { base with
        u_degree := o.bsplineUDegree
        v_degree := o.bsplineVDegree
        u_knots := some ((List.range o.bsplineNbUKnots).map (fun i => o.bsplineUKnot (i + 1)))
        u_multiplicities := some ((List.range o.bsplineNbUKnots).map (fun i => o.bsplineUMult (i + 1)))
        v_knots := some ((List.range o.bsplineNbVKnots).map (fun i => o.bsplineVKnot (i + 1)))
        v_multiplicities := some ((List.range o.bsplineNbVKnots).map (fun i => o.bsplineVMult (i + 1)))
        control_points := some ((List.range o.bsplineNbUPoles).flatMap (fun ui =>
          (List.range o.bsplineNbVPoles).map (fun vi =>
            { x := (o.bsplinePole (ui + 1) (vi + 1)).1
              y := (o.bsplinePole (ui + 1) (vi + 1)).2.1
              z := (o.bsplinePole (ui + 1) (vi + 1)).2.2
              weight := if o.bsplineIsURat || o.bsplineIsVRat
                        then o.bsplineWeight (ui + 1) (vi + 1) else 1
              index := [ui, vi] }))) }
  | .BEZIER =>
      { base with
        u_degree := o.bezierUDegree
        v_degree := o.bezierVDegree
        control_points := some ((List.range o.bezierNbUPoles).flatMap (fun ui =>
          (List.range o.bezierNbVPoles).map (fun vi =>
            { x := (o.bezierPole (ui + 1) (vi + 1)).1
              y := (o.bezierPole (ui + 1) (vi + 1)).2.1
              z := (o.bezierPole (ui + 1) (vi + 1)).2.2
              weight := if o.bezierIsURat || o.bezierIsVRat
                        then o.bezierWeight (ui + 1) (vi + 1) else 1
              index := [ui, vi] }))) }
  | _ => base

/-! ## features.py -/

/-- A torch tensor of rationals: explicit shape plus row-major data.
`torch.empty((0, d))` is `⟨0, d, []⟩`; `torch.zeros((n, d))` filled row by
row is `⟨n, d, rows⟩`. -/
structure TensorQ where
  nrows : Nat
  ncols : Nat
  data : List (List ℚ)
  deriving DecidableEq, Repr

/-- A torch `long` tensor: explicit shape plus row-major data. -/
structure TensorZ where
  nrows : Nat
  ncols : Nat
  data : List (List Nat)
  deriving DecidableEq, Repr

/-- Write a 3-component tuple at consecutive positions
(`features[i, off:off+3] = torch.tensor(v)`). -/
def setVec3 (row : List ℚ) (off : Nat) (v : ℚ × ℚ × ℚ) : List ℚ :=
  ((row.set off v.1).set (off + 1) v.2.1).set (off + 2) v.2.2

/-- The `if geom.field is not None:` guard around a 3-component write. -/
def setVec3Opt (row : List ℚ) (off : Nat) : Option (ℚ × ℚ × ℚ) → List ℚ
  | some v => setVec3 row off v
  | none => row

/-- The `if geom.field is not None:` guard around a scalar write. -/
def setOpt (row : List ℚ) (off : Nat) : Option ℚ → List ℚ
  | some r => row.set off r
  | none => row

/-- One row of `build_edge_features` from `features.py`: a zero row of width
`EDGE_FEATURE_DIM` written at the offsets the source uses (one-hot at the
curve-type index, then offset `NUM_CURVE_TYPES` onward; `None` fields are
skipped, leaving zeros). -/
def edgeFeatureRow (g : EdgeGeometry) : List ℚ :=
  let row := List.replicate EDGE_FEATURE_DIM 0
  let row := row.set g.curve_type.toIdx 1
  let row := row.set NUM_CURVE_TYPES (g.orientation : ℚ)
  let row := row.set (NUM_CURVE_TYPES + 1) (g.degree : ℚ)
  let row := row.set (NUM_CURVE_TYPES + 2) (if g.is_closed then 1 else 0)
  let row := row.set (NUM_CURVE_TYPES + 3) g.t_min
  let row := row.set (NUM_CURVE_TYPES + 4) g.t_max
  let row := setVec3Opt row (NUM_CURVE_TYPES + 5) g.line_direction
  let row := setVec3Opt row (NUM_CURVE_TYPES + 8) g.center
  let row := setVec3Opt row (NUM_CURVE_TYPES + 11) g.axis
  setOpt row (NUM_CURVE_TYPES + 14) g.radius

/-- `build_edge_features` from `features.py`. -/
def build_edge_features (gs : List EdgeGeometry) : TensorQ :=
  if gs.isEmpty then ⟨0, EDGE_FEATURE_DIM, []⟩
  else ⟨gs.length, EDGE_FEATURE_DIM, gs.map edgeFeatureRow⟩

/-- One row of `build_face_features` from `features.py`. -/
def faceFeatureRow (g : FaceGeometry) : List ℚ :=
  let row := List.replicate FACE_FEATURE_DIM 0
  let row := row.set g.surface_type.toIdx 1
  let row := row.set NUM_SURFACE_TYPES (g.orientation : ℚ)
  let row := row.set (NUM_SURFACE_TYPES + 1) (g.u_degree : ℚ)
  let row := row.set (NUM_SURFACE_TYPES + 2) (g.v_degree : ℚ)
  let row := row.set (NUM_SURFACE_TYPES + 3) (if g.is_u_closed then 1 else 0)
  let row := row.set (NUM_SURFACE_TYPES + 4) (if g.is_v_closed then 1 else 0)
  let row := row.set (NUM_SURFACE_TYPES + 5) g.u_min
  let row := row.set (NUM_SURFACE_TYPES + 6) g.u_max
  let row := row.set (NUM_SURFACE_TYPES + 7) g.v_min
  let row := row.set (NUM_SURFACE_TYPES + 8) g.v_max
  let row := setVec3Opt row (NUM_SURFACE_TYPES + 9) g.plane_normal
  let row := setVec3Opt row (NUM_SURFACE_TYPES + 12) g.plane_origin
  let row := setVec3Opt row (NUM_SURFACE_TYPES + 15) g.axis_direction
  let row := setVec3Opt row (NUM_SURFACE_TYPES + 18) g.axis_origin
  let row := setOpt row (NUM_SURFACE_TYPES + 21) g.radius
  setOpt row (NUM_SURFACE_TYPES + 22) g.radius2

/-- `build_face_features` from `features.py`. -/
def build_face_features (gs : List FaceGeometry) : TensorQ :=
  if gs.isEmpty then ⟨0, FACE_FEATURE_DIM, []⟩
  else ⟨gs.length, FACE_FEATURE_DIM, gs.map faceFeatureRow⟩

/-- `build_vertex_features` from `features.py`. -/
def build_vertex_features (gs : List VertexGeometry) : TensorQ :=
  if gs.isEmpty then ⟨0, VERTEX_FEATURE_DIM, []⟩
  else ⟨gs.length, VERTEX_FEATURE_DIM, gs.map (fun g => [g.x, g.y, g.z])⟩

/-- `build_control_point_features` from `features.py`. -/
def build_control_point_features (cps : List ControlPoint) : TensorQ :=
  if cps.isEmpty then ⟨0, CONTROL_POINT_FEATURE_DIM, []⟩
  else ⟨cps.length, CONTROL_POINT_FEATURE_DIM, cps.map (fun c => [c.x, c.y, c.z, c.weight])⟩

/-- `build_edge_index` from `features.py`: COO transpose of the pair list,
shape `(2, N)`; `torch.empty((2, 0))` for the empty list. -/
def build_edge_index (pairs : List (Nat × Nat)) : TensorZ :=
  if pairs.isEmpty then ⟨2, 0, [[], []]⟩
  else ⟨2, pairs.length, [pairs.map Prod.fst, pairs.map Prod.snd]⟩

/-! ## Documented feature-row layouts (refinement targets)

`edgeRowLayoutSpec` and `faceRowLayoutSpec` follow the spec's words for the
row layouts (§4.3 of the design document): the one-hot type block followed by
the named scalar and vector fields, inapplicable fields zero-filled.  They
are compared against the rows the source builds. -/

/-- One-hot block of width `n` with a 1 at `idx`. -/
def oneHot (n idx : Nat) : List ℚ :=
  (List.range n).map (fun i => if i = idx then 1 else 0)

/-- Three components of an optional vector field, zero-filled when absent. -/
def vec3OrZero : Option (ℚ × ℚ × ℚ) → List ℚ
  | some v => [v.1, v.2.1, v.2.2]
  | none => [0, 0, 0]

/-- The documented edge-row layout:
`[one-hot curve type][orientation][degree][is_closed][t_min][t_max]`
`[line_direction×3][center×3][axis×3][radius]`. -/
def edgeRowLayoutSpec (g : EdgeGeometry) : List ℚ :=
  oneHot NUM_CURVE_TYPES g.curve_type.toIdx ++
  [(g.orientation : ℚ), (g.degree : ℚ), if g.is_closed then 1 else 0, g.t_min, g.t_max] ++
  vec3OrZero g.line_direction ++ vec3OrZero g.center ++ vec3OrZero g.axis ++
  [g.radius.getD 0]

/-- The documented face-row layout:
`[one-hot surface type][orientation][u_degree][v_degree][u_closed][v_closed]`
`[u_min][u_max][v_min][v_max][plane_normal×3][plane_origin×3]`
`[axis_direction×3][axis_origin×3][radius][radius2]`. -/
def faceRowLayoutSpec (g : FaceGeometry) : List ℚ :=
  oneHot NUM_SURFACE_TYPES g.surface_type.toIdx ++
  [(g.orientation : ℚ), (g.u_degree : ℚ), (g.v_degree : ℚ),
   if g.is_u_closed then 1 else 0, if g.is_v_closed then 1 else 0,
   g.u_min, g.u_max, g.v_min, g.v_max] ++
  vec3OrZero g.plane_normal ++ vec3OrZero g.plane_origin ++
  vec3OrZero g.axis_direction ++ vec3OrZero g.axis_origin ++
  [g.radius.getD 0, g.radius2.getD 0]

theorem oneHot_length (n idx : Nat) : (oneHot n idx).length = n := by
  simp [oneHot]

theorem CurveType.toIdx_lt_numCurveTypes (ct : CurveType) : ct.toIdx < 9 := by
  cases ct <;> decide

theorem SurfaceType.toIdx_lt_numSurfaceTypes (st : SurfaceType) : st.toIdx < 11 := by
  cases st <;> decide

theorem set_replicate_curve_oneHot (ct : CurveType) :
    (List.replicate 9 (0 : ℚ)).set ct.toIdx 1 = oneHot 9 ct.toIdx := by
  cases ct <;> rfl

theorem set_replicate_surface_oneHot (st : SurfaceType) :
    (List.replicate 11 (0 : ℚ)).set st.toIdx 1 = oneHot 11 st.toIdx := by
  cases st <;> rfl

/-- The row the source builds is exactly the documented layout. -/
theorem edgeFeatureRow_eq_layout (g : EdgeGeometry) :
    edgeFeatureRow g = edgeRowLayoutSpec g := by
  rcases g with ⟨ct, orv, dg, cl, t0, t1, ld, ce, ax, r, mr, k, m, cps⟩
  have hsplit : List.replicate 24 (0 : ℚ) = List.replicate 9 0 ++ (List.replicate 5 0 ++
      (List.replicate 3 0 ++ (List.replicate 3 0 ++ (List.replicate 3 0 ++
      List.replicate 1 0)))) := rfl
  rcases ld with _ | ⟨a, b, c⟩ <;> rcases ce with _ | ⟨d, e, f⟩ <;>
    rcases ax with _ | ⟨p, q, s⟩ <;> rcases r with _ | r <;>
    (simp only [edgeFeatureRow, setVec3, setVec3Opt, setOpt, edgeRowLayoutSpec, vec3OrZero, Option.getD,
       NUM_CURVE_TYPES, EDGE_FEATURE_DIM]
     rw [hsplit]
     simp only [List.set_append_right, List.set_append_left, List.length_set,
       List.length_replicate, List.length_append, oneHot_length,
       CurveType.toIdx_lt_numCurveTypes, Nat.reduceAdd, Nat.reduceSub,
       Nat.reduceLeDiff, Nat.reduceLT, set_replicate_curve_oneHot, List.append_assoc]
     congr 1)

set_option maxHeartbeats 1600000 in
/-- The face row the source builds is exactly the documented layout. -/
theorem faceFeatureRow_eq_layout (g : FaceGeometry) :
    faceFeatureRow g = faceRowLayoutSpec g := by
  rcases g with ⟨st, orv, ud, vd, uc, vc, u0, u1, v0, v1, pn, po, ad, ao, r, r2, ha,
    uk, vk, um, vm, cps⟩
  have hsplit : List.replicate 34 (0 : ℚ) = List.replicate 11 0 ++ (List.replicate 9 0 ++
      (List.replicate 3 0 ++ (List.replicate 3 0 ++ (List.replicate 3 0 ++
      (List.replicate 3 0 ++ List.replicate 2 0))))) := rfl
  rcases pn with _ | ⟨a, b, c⟩ <;> rcases po with _ | ⟨d, e, f⟩ <;>
    rcases ad with _ | ⟨p, q, s⟩ <;> rcases ao with _ | ⟨x, y, z⟩ <;>
    rcases r with _ | r <;> rcases r2 with _ | r2 <;>
    (simp only [faceFeatureRow, setVec3, setVec3Opt, setOpt, faceRowLayoutSpec, vec3OrZero, Option.getD,
       NUM_SURFACE_TYPES, FACE_FEATURE_DIM]
     rw [hsplit]
     simp only [List.set_append_right, List.set_append_left, List.length_set,
       List.length_replicate, List.length_append, oneHot_length,
       SurfaceType.toIdx_lt_numSurfaceTypes, Nat.reduceAdd, Nat.reduceSub,
       Nat.reduceLeDiff, Nat.reduceLT, set_replicate_surface_oneHot, List.append_assoc]
     congr 1)

theorem edgeRowLayoutSpec_length (g : EdgeGeometry) :
    (edgeRowLayoutSpec g).length = NUM_CURVE_TYPES + 15 := by
  rcases g with ⟨ct, orv, dg, cl, t0, t1, ld, ce, ax, r, mr, k, m, cps⟩
  simp only [edgeRowLayoutSpec, oneHot, vec3OrZero, List.length_append, List.length_map,
    List.length_range]
  cases ld <;> cases ce <;> cases ax <;> rfl

theorem faceRowLayoutSpec_length (g : FaceGeometry) :
    (faceRowLayoutSpec g).length = NUM_SURFACE_TYPES + 23 := by
  rcases g with ⟨st, orv, ud, vd, uc, vc, u0, u1, v0, v1, pn, po, ad, ao, r, r2, ha,
    uk, vk, um, vm, cps⟩
  simp only [faceRowLayoutSpec, oneHot, vec3OrZero, List.length_append, List.length_map,
    List.length_range]
  cases pn <;> cases po <;> cases ad <;> cases ao <;> rfl

/-! ## topology.py

Topological entities are oracle records: an identity token (the value of
`shape.HashCode(2147483647)`, the kernel's identity oracle) together with
the geometric payload the later stages read.  Traversal order, per-entity
sub-exploration and the `MapShapesAndAncestors` edge-to-faces map are the
oracle's answers to the exploration primitives. -/

/-- A traversed `TopoDS_Vertex`: identity token plus the `BRep_Tool.Pnt_s`
coordinates. -/
structure VertexEnt where
  token : Nat
  pnt : ℚ × ℚ × ℚ

/-- A traversed `TopoDS_Edge`: identity token plus its curve oracle. -/
structure EdgeEnt where
  token : Nat
  curve : CurveOracle

/-- A traversed `TopoDS_Face`: identity token plus its surface oracle. -/
structure FaceEnt where
  token : Nat
  surf : SurfaceOracle

/-- The oracle answers for one root shape: the three `TopExp_Explorer`
traversals (repeats included), the per-edge vertex exploration, the per-face
edge exploration, and the `TopExp.MapShapesAndAncestors_s` edge-to-faces
map in index order (an ancestor list may repeat a face, e.g. for seams). -/
structure OracleShape where
  vertexTrav : List VertexEnt
  edgeTrav : List EdgeEnt
  faceTrav : List FaceEnt
  edgeVerts : EdgeEnt → List VertexEnt
  faceEdges : FaceEnt → List EdgeEnt
  edgeFaceMap : List (EdgeEnt × List FaceEnt)

/-- `_shape_hash` from `topology.py`: the oracle's identity token. -/
def _shape_hash {α : Type} (token : α → Nat) (e : α) : Nat := token e

/-- Python `dict` lookup on an association list (keys are unique by
construction, so list order is irrelevant). -/
def dictLookup (m : List (Nat × Nat)) (k : Nat) : Option Nat :=
  match m with
  | [] => none
  | (k', v) :: rest => if k = k' then some v else dictLookup rest k

/-- One iteration of the registration `while` loop in `extract_topology`:
`if h not in map: map[h] = len(lst); lst.append(entity)`. -/
def registerStep {α : Type} (token : α → Nat)
    (st : List (Nat × Nat) × List α) (e : α) : List (Nat × Nat) × List α :=
  match dictLookup st.1 (_shape_hash token e) with
  | some _ => st
  | none => (st.1 ++ [(_shape_hash token e, st.2.length)], st.2 ++ [e])

/-- The registration loop over one kind's traversal. -/
def registerAll {α : Type} (token : α → Nat) (trav : List α) :
    List (Nat × Nat) × List α :=
  trav.foldl (registerStep token) ([], [])

/-- `TopologyData` dataclass from `topology.py`. -/
structure TopologyData where
  vertex_map : List (Nat × Nat)
  edge_map : List (Nat × Nat)
  face_map : List (Nat × Nat)
  vertices : List VertexEnt
  edges : List EdgeEnt
  faces : List FaceEnt
  vertex_to_edge : List (Nat × Nat)
  edge_to_face : List (Nat × Nat)
  face_to_face : List (Nat × Nat)

/-- The vertex-to-edge loop: for each registered edge in index order,
explore its vertices and emit `(vertex_idx, edge_idx)` for every occurrence
whose hash is registered. -/
def buildVertexToEdge (s : OracleShape) (vmap : List (Nat × Nat))
    (edges : List EdgeEnt) : List (Nat × Nat) :=
  edges.enum.foldl (fun acc p =>
    (s.edgeVerts p.2).foldl (fun acc v =>
      match dictLookup vmap (_shape_hash VertexEnt.token v) with
      | some vi => acc ++ [(vi, p.1)]
      | none => acc) acc) []

/-- The edge-to-face loop: analogous to `buildVertexToEdge`. -/
def buildEdgeToFace (s : OracleShape) (emap : List (Nat × Nat))
    (faces : List FaceEnt) : List (Nat × Nat) :=
  faces.enum.foldl (fun acc p =>
    (s.faceEdges p.2).foldl (fun acc e =>
      match dictLookup emap (_shape_hash EdgeEnt.token e) with
      | some ei => acc ++ [(ei, p.1)]
      | none => acc) acc) []

/-- The inner double loop of the adjacency pass: for `i1` ranging over the
ancestor-face indices and `i2` over the later ones, add the unordered pair
once (`adjacency_set` membership test) and append both directed pairs. -/
def addPairsForEdge : List Nat → List (Nat × Nat) × List (Nat × Nat) →
    List (Nat × Nat) × List (Nat × Nat)
  | [], st => st
  | f1 :: rest, st =>
      addPairsForEdge rest (rest.foldl (fun st f2 =>
        if (f1, f2) ∈ st.1 ∨ (f2, f1) ∈ st.1 then st
        else (st.1 ++ [(f1, f2)], st.2 ++ [(f1, f2), (f2, f1)])) st)

/-- The ancestor faces of one edge resolved to registered indices. -/
def adjacentFaceIndices (fmap : List (Nat × Nat)) (faces : List FaceEnt) : List Nat :=
  faces.foldl (fun acc f =>
    match dictLookup fmap (_shape_hash FaceEnt.token f) with
    | some fi => acc ++ [fi]
    | none => acc) []

/-- `extract_topology` from `topology.py`. -/
def extract_topology (s : OracleShape) : TopologyData :=
  let rv := registerAll VertexEnt.token s.vertexTrav
  let re := registerAll EdgeEnt.token s.edgeTrav
  let rf := registerAll FaceEnt.token s.faceTrav
  let v2e := buildVertexToEdge s rv.1 re.2
  let e2f := buildEdgeToFace s re.1 rf.2
  let f2f := (s.edgeFaceMap.foldl (fun st entry =>
    addPairsForEdge (adjacentFaceIndices rf.1 entry.2) st) ([], [])).2
  { vertex_map := rv.1
    edge_map := re.1
    face_map := rf.1
    vertices := rv.2
    edges := re.2
    faces := rf.2
    vertex_to_edge := v2e
    edge_to_face := e2f
    face_to_face := f2f }

/-! ## converter.py -/

/-- `extract_vertex_geometry` from `geometry.py` (`BRep_Tool.Pnt_s`). -/
def extract_vertex_geometry (v : VertexEnt) : VertexGeometry :=
  { x := v.pnt.1, y := v.pnt.2.1, z := v.pnt.2.2 }

/-- The mutable locals of the control-point collection loops in
`cadquery_to_pyg` (`converter.py` lines 70-93). -/
structure CollectState where
  control_points : List ControlPoint
  cp_to_edge : List (Nat × Nat)
  cp_to_edge_attr : List (List Nat)
  cp_to_face : List (Nat × Nat)
  cp_to_face_attr : List (List Nat)
  deriving Repr

/-- One iteration of the edge control-point loop: append the point, the
`(cp_idx, edge_idx)` pair (`cp_idx = len(control_points)` before the
append) and the tag `cp.index`. -/
def edgeCpStep (ei : Nat) (st : CollectState) (cp : ControlPoint) : CollectState :=
  { st with
    control_points := st.control_points ++ [cp]
    cp_to_edge := st.cp_to_edge ++ [(st.control_points.length, ei)]
    cp_to_edge_attr := st.cp_to_edge_attr ++ [cp.index] }

/-- One iteration of the face control-point loop. -/
def faceCpStep (fi : Nat) (st : CollectState) (cp : ControlPoint) : CollectState :=
  { st with
    control_points := st.control_points ++ [cp]
    cp_to_face := st.cp_to_face ++ [(st.control_points.length, fi)]
    cp_to_face_attr := st.cp_to_face_attr ++ [cp.index] }

/-- The two collection loops: control points of each edge descriptor, then
of each face descriptor, appended to one global list.  A `None` or empty
`control_points` contributes nothing, matching the falsy
`if geom.control_points:` guard. -/
def collectControlPoints (edge_geoms : List EdgeGeometry)
    (face_geoms : List FaceGeometry) : CollectState :=
  let st0 : CollectState := ⟨[], [], [], [], []⟩
  let st1 := edge_geoms.enum.foldl (fun st p =>
    (p.2.control_points.getD []).foldl (edgeCpStep p.1) st) st0
  face_geoms.enum.foldl (fun st p =>
    (p.2.control_points.getD []).foldl (faceCpStep p.1) st) st1

/-- The `HeteroData` instance `cadquery_to_pyg` fills: node features,
auxiliary knot/multiplicity lists, relation index tensors and tag tensors. -/
structure HeteroGraph where
  vertex_x : TensorQ
  edge_x : TensorQ
  face_x : TensorQ
  control_point_x : TensorQ
  edge_knots : List (List ℚ)
  edge_multiplicities : List (List Nat)
  face_u_knots : List (List ℚ)
  face_v_knots : List (List ℚ)
  face_u_multiplicities : List (List Nat)
  face_v_multiplicities : List (List Nat)
  vertex_bounds_edge : TensorZ
  edge_bounds_face : TensorZ
  face_adjacent_face : TensorZ
  cp_controls_edge : TensorZ
  cp_controls_face : TensorZ
  cp_controls_edge_attr : TensorZ
  cp_controls_face_attr : TensorZ

/-- The body of `cadquery_to_pyg` after input dispatch: extract topology,
extract geometry per entity, collect control points, build all tensors. -/
def convertShape (s : OracleShape) : HeteroGraph :=
  let topo := extract_topology s
  let vertex_geoms := topo.vertices.map extract_vertex_geometry
  let edge_geoms := topo.edges.map (fun e => extract_edge_geometry e.curve)
  let face_geoms := topo.faces.map (fun f => extract_face_geometry f.surf)
  let cps := collectControlPoints edge_geoms face_geoms
  { vertex_x := build_vertex_features vertex_geoms
    edge_x := build_edge_features edge_geoms
    face_x := build_face_features face_geoms
    control_point_x := build_control_point_features cps.control_points
    edge_knots := edge_geoms.map (fun g => g.knots.getD [])
    edge_multiplicities := edge_geoms.map (fun g => g.multiplicities.getD [])
    face_u_knots := face_geoms.map (fun g => g.u_knots.getD [])
    face_v_knots := face_geoms.map (fun g => g.v_knots.getD [])
    face_u_multiplicities := face_geoms.map (fun g => g.u_multiplicities.getD [])
    face_v_multiplicities := face_geoms.map (fun g => g.v_multiplicities.getD [])
    vertex_bounds_edge := build_edge_index topo.vertex_to_edge
    edge_bounds_face := build_edge_index topo.edge_to_face
    face_adjacent_face := build_edge_index topo.face_to_face
    cp_controls_edge := build_edge_index cps.cp_to_edge
    cp_controls_face := build_edge_index cps.cp_to_face
    cp_controls_edge_attr :=
      if cps.cp_to_edge_attr.isEmpty then ⟨0, 1, []⟩
      else ⟨cps.cp_to_edge_attr.length, 1, cps.cp_to_edge_attr.map (fun a => [a.headD 0])⟩
    cp_controls_face_attr :=
      if cps.cp_to_face_attr.isEmpty then ⟨0, 2, []⟩
      else ⟨cps.cp_to_face_attr.length, 2, cps.cp_to_face_attr⟩ }

/-- The possible arguments of `cadquery_to_pyg`: a `cq.Workplane` (whose
`.val().wrapped` is a shape), a `cq.Shape` (whose `.wrapped` is a shape), a
raw `TopoDS_Shape`, or any other Python value, known only by its type name. -/
inductive CqInput where
  | workplane (s : OracleShape)
  | shape (s : OracleShape)
  | topods (s : OracleShape)
  | other (typeName : String)

/-- The `isinstance` dispatch at the top of `cadquery_to_pyg`
(`converter.py` lines 52-60): unwrap accepted kinds, raise `TypeError`
naming the received type otherwise. -/
def resolveInputShape : CqInput → Except String OracleShape
  | .workplane s => .ok s
  | .shape s => .ok s
  | .topods s => .ok s
  | .other typeName =>
      .error ("Expected CadQuery Workplane, Shape, or TopoDS_Shape, got " ++ typeName)

/-- `cadquery_to_pyg` from `converter.py`: eager input validation, then the
conversion pipeline.  A raised `TypeError` is the `Except.error` branch. -/
def cadquery_to_pyg (inp : CqInput) : Except String HeteroGraph :=
  match resolveInputShape inp with
  | .error e => .error e
  | .ok s => .ok (convertShape s)

/-! ## The package namespace (`__init__.py`) -/

/-- The module-level names `converter.py` binds: its imports and its single
`def`. -/
def converter_module_names : List String :=
  ["List", "Tuple", "Union", "torch", "HeteroData", "cq", "TopoDS_Shape",
   "extract_topology", "TopologyData",
   "extract_vertex_geometry", "extract_edge_geometry", "extract_face_geometry",
   "VertexGeometry", "EdgeGeometry", "FaceGeometry", "ControlPoint",
   "build_vertex_features", "build_edge_features", "build_face_features",
   "build_control_point_features", "build_edge_index",
   "cadquery_to_pyg"]

/-- The names `__init__.py` imports from `.converter` (line 8). -/
def init_imports_from_converter : List String :=
  ["cadquery_to_pyg", "cadquery_to_pyg_simple"]

/-- `__all__` from `__init__.py` (line 12). -/
def package_all : List String :=
  ["cadquery_to_pyg", "cadquery_to_pyg_simple", "CurveType", "SurfaceType"]

/-- `import cq2pyg` succeeds iff every name `__init__.py` imports from the
converter module is actually bound there. -/
def import_cq2pyg_succeeds : Bool :=
  init_imports_from_converter.all (fun n => converter_module_names.contains n)

/-! ## Concrete oracle fixtures used by witnesses and counterexamples -/

/-- A curve oracle whose every accessor answers zero (`typeCode 0` is a line). -/
def zeroCurveOracle : CurveOracle :=
  { typeCode := 0
    orientationCode := 0
    firstParameter := 0
    lastParameter := 0
    isClosed := false
    lineDirection := (0, 0, 0)
    circleCenter := (0, 0, 0)
    circleAxisDir := (0, 0, 0)
    circleRadius := 0
    ellipseCenter := (0, 0, 0)
    ellipseAxisDir := (0, 0, 0)
    ellipseMajorRadius := 0
    ellipseMinorRadius := 0
    bsplineDegree := 0
    bsplineNbKnots := 0
    bsplineKnot := fun _ => 0
    bsplineMult := fun _ => 0
    bsplineIsRat := false
    bsplineNbPoles := 0
    bsplinePole := fun _ => (0, 0, 0)
    bsplineWeight := fun _ => 0
    bezierDegree := 0
    bezierIsRat := false
    bezierNbPoles := 0
    bezierPole := fun _ => (0, 0, 0)
    bezierWeight := fun _ => 0 }

/-- A surface oracle whose every accessor answers zero (`typeCode 0` is a plane). -/
def zeroSurfaceOracle : SurfaceOracle :=
  { typeCode := 0
    orientationCode := 0
    firstUParameter := 0
    lastUParameter := 0
    firstVParameter := 0
    lastVParameter := 0
    isUClosed := false
    isVClosed := false
    planeAxisDir := (0, 0, 0)
    planeLocation := (0, 0, 0)
    cylinderAxisDir := (0, 0, 0)
    cylinderLocation := (0, 0, 0)
    cylinderRadius := 0
    coneAxisDir := (0, 0, 0)
    coneLocation := (0, 0, 0)
    coneRefRadius := 0
    coneSemiAngle := 0
    spherePositionDir := (0, 0, 0)
    sphereLocation := (0, 0, 0)
    sphereRadius := 0
    torusAxisDir := (0, 0, 0)
    torusLocation := (0, 0, 0)
    torusMajorRadius := 0
    torusMinorRadius := 0
    bsplineUDegree := 0
    bsplineVDegree := 0
    bsplineNbUKnots := 0
    bsplineUKnot := fun _ => 0
    bsplineUMult := fun _ => 0
    bsplineNbVKnots := 0
    bsplineVKnot := fun _ => 0
    bsplineVMult := fun _ => 0
    bsplineIsURat := false
    bsplineIsVRat := false
    bsplineNbUPoles := 0
    bsplineNbVPoles := 0
    bsplinePole := fun _ _ => (0, 0, 0)
    bsplineWeight := fun _ _ => 0
    bezierUDegree := 0
    bezierVDegree := 0
    bezierIsURat := false
    bezierIsVRat := false
    bezierNbUPoles := 0
    bezierNbVPoles := 0
    bezierPole := fun _ _ => (0, 0, 0)
    bezierWeight := fun _ _ => 0 }

/-- The empty shape: no entities at all. -/
def emptyOracle : OracleShape :=
  { vertexTrav := []
    edgeTrav := []
    faceTrav := []
    edgeVerts := fun _ => []
    faceEdges := fun _ => []
    edgeFaceMap := [] }

/-- One face, one seam edge whose ancestor list holds that face twice, as
`TopExp.MapShapesAndAncestors_s` reports for a seam (e.g. the lateral face
of a closed cylinder). -/
def seamFace : FaceEnt := ⟨7, zeroSurfaceOracle⟩

/-- The seam edge of `seamOracle`. -/
def seamEdge : EdgeEnt := ⟨3, zeroCurveOracle⟩

/-- The seam shape: its edge-to-faces map lists `seamFace` twice for
`seamEdge`. -/
def seamOracle : OracleShape :=
  { vertexTrav := []
    edgeTrav := [seamEdge]
    faceTrav := [seamFace]
    edgeVerts := fun _ => []
    faceEdges := fun _ => [seamEdge]
    edgeFaceMap := [(seamEdge, [seamFace, seamFace])] }

/-- A shape whose vertex traversal repeats a token (a shared vertex seen
from two edges) and holds two distinct-token vertices at the same
coordinates. -/
def dupOracle : OracleShape :=
  { vertexTrav := [⟨5, (1, 2, 3)⟩, ⟨9, (1, 2, 3)⟩, ⟨5, (1, 2, 3)⟩]
    edgeTrav := [⟨4, zeroCurveOracle⟩, ⟨4, zeroCurveOracle⟩]
    faceTrav := [⟨8, zeroSurfaceOracle⟩]
    edgeVerts := fun _ => []
    faceEdges := fun _ => []
    edgeFaceMap := [] }

/-! ## Claims -/

/-- C1: importing the `cq2pyg` package is claimed to succeed and bind every
`__all__` name.  The claim fails on the code: `__init__.py` imports
`cadquery_to_pyg_simple` from `.converter`, but `converter.py` binds no
such name, so `import cq2pyg` raises `ImportError`. -/
theorem claim_C1_import_fails :
    "cadquery_to_pyg_simple" ∈ init_imports_from_converter ∧
    "cadquery_to_pyg_simple" ∈ package_all ∧
    "cadquery_to_pyg_simple" ∉ converter_module_names ∧
    import_cq2pyg_succeeds = false := by
  refine ⟨by decide, by decide, by decide, by decide⟩

/-- C2: the face-to-face list is claimed irreflexive even for seam edges.
On `seamOracle`, whose seam edge lists the same face twice in its ancestor
list, the source appends the self-pair `(0, 0)` twice, refuting
irreflexivity (and the pair-dedup reading of "two directed pairs"). -/
theorem claim_C2_seam_self_pair :
    (extract_topology seamOracle).face_to_face = [(0, 0), (0, 0)] ∧
    (0, 0) ∈ (extract_topology seamOracle).face_to_face := by
  refine ⟨by decide, by decide⟩

/-- C6: `cadquery_to_pyg` rejects any value that is not a `Workplane`,
`Shape` or `TopoDS_Shape` with a `TypeError` naming the received type,
before anything else runs; the three accepted kinds pass validation and
reach the conversion pipeline. -/
theorem claim_C6_input_validation (t : String) (s : OracleShape) :
    cadquery_to_pyg (CqInput.other t) =
      .error ("Expected CadQuery Workplane, Shape, or TopoDS_Shape, got " ++ t) ∧
    cadquery_to_pyg (CqInput.workplane s) = .ok (convertShape s) ∧
    cadquery_to_pyg (CqInput.shape s) = .ok (convertShape s) ∧
    cadquery_to_pyg (CqInput.topods s) = .ok (convertShape s) :=
  ⟨rfl, rfl, rfl, rfl⟩

/-- Witness for C6 at a concrete invalid input and a concrete shape. -/
theorem claim_C6_witness :
    cadquery_to_pyg (CqInput.other "int") =
      .error "Expected CadQuery Workplane, Shape, or TopoDS_Shape, got int" ∧
    cadquery_to_pyg (CqInput.topods emptyOracle) = .ok (convertShape emptyOracle) :=
  ⟨(claim_C6_input_validation "int" emptyOracle).1,
   (claim_C6_input_validation "int" emptyOracle).2.2.2⟩

/-- C10: the conversion is a pure function of its input — the embedding has
no ambient state (`converter.py` and its callees keep no module-level
mutable bindings), so equal inputs, in particular the same input converted
twice in a row, give structurally identical outputs. -/
theorem claim_C10_determinism (i₁ i₂ : CqInput) (h : i₁ = i₂)
    (gs₁ gs₂ : List EdgeGeometry) (hg : gs₁ = gs₂) :
    cadquery_to_pyg i₁ = cadquery_to_pyg i₂ ∧
    build_edge_features gs₁ = build_edge_features gs₂ := by
  subst h; subst hg; exact ⟨rfl, rfl⟩

/-- Witness for C10: two runs on the same concrete input agree. -/
theorem claim_C10_witness :
    cadquery_to_pyg (CqInput.topods dupOracle) = cadquery_to_pyg (CqInput.topods dupOracle) ∧
    build_edge_features [] = build_edge_features [] :=
  claim_C10_determinism (CqInput.topods dupOracle) (CqInput.topods dupOracle) rfl [] [] rfl

/-- A concrete line-edge descriptor (what `extract_edge_geometry` returns
for a unit-direction line). -/
def ceLineGeom : EdgeGeometry :=
  { curve_type := .LINE
    orientation := 1
    degree := 1
    is_closed := false
    t_min := 0
    t_max := 1
    line_direction := some (1, 0, 0) }

/-- A concrete plane-face descriptor. -/
def cePlaneGeom : FaceGeometry :=
  { surface_type := .PLANE
    orientation := 1
    u_degree := 1
    v_degree := 1
    is_u_closed := false
    is_v_closed := false
    u_min := 0
    u_max := 1
    v_min := 0
    v_max := 1
    plane_normal := some (0, 0, 1)
    plane_origin := some (0, 0, 0) }

/-- Counterexample to C3 as stated: on a one-line input the edge row has 24
columns, not `curveTypeCount + 14 = 23`. -/
theorem claim_C3_counterexample :
    ((build_edge_features [ceLineGeom]).data.headD []).length = NUM_CURVE_TYPES + 15 ∧
    ¬ ∀ row ∈ (build_edge_features [ceLineGeom]).data, row.length = NUM_CURVE_TYPES + 14 := by
  refine ⟨by decide, by decide⟩

/-- C3 (amended): every edge row has width `curveTypeCount + 15 = 24`
(`EDGE_FEATURE_DIM`), laid out as the one-hot curve type followed by
orientation, degree, is_closed, t_min, t_max, line_direction (3),
center (3), axis (3), radius, with inapplicable fields zero-filled. -/
theorem claim_C3_edge_row_width_and_layout (gs : List EdgeGeometry) :
    (build_edge_features gs).ncols = EDGE_FEATURE_DIM ∧
    EDGE_FEATURE_DIM = NUM_CURVE_TYPES + 15 ∧
    (build_edge_features gs).data = gs.map edgeRowLayoutSpec ∧
    ∀ row ∈ (build_edge_features gs).data, row.length = NUM_CURVE_TYPES + 15 := by
  have hfun : edgeFeatureRow = edgeRowLayoutSpec := funext edgeFeatureRow_eq_layout
  have hdata : (build_edge_features gs).data = gs.map edgeRowLayoutSpec := by
    cases gs with
    | nil => rfl
    | cons a l => show (a :: l).map edgeFeatureRow = _; rw [hfun]
  refine ⟨by cases gs <;> rfl, rfl, hdata, ?_⟩
  intro row hrow
  rw [hdata] at hrow
  rcases List.mem_map.mp hrow with ⟨g, _, rfl⟩
  exact edgeRowLayoutSpec_length g

/-- Witness for C3 (amended) at a concrete one-row input. -/
theorem claim_C3_witness :
    (build_edge_features [ceLineGeom]).ncols = EDGE_FEATURE_DIM ∧
    (build_edge_features [ceLineGeom]).data = [ceLineGeom].map edgeRowLayoutSpec :=
  ⟨(claim_C3_edge_row_width_and_layout [ceLineGeom]).1,
   (claim_C3_edge_row_width_and_layout [ceLineGeom]).2.2.1⟩

/-- Counterexample to C4 as stated: on a one-plane input the face row has 34
columns, not `surfaceTypeCount + 24 = 35`. -/
theorem claim_C4_counterexample :
    ((build_face_features [cePlaneGeom]).data.headD []).length = NUM_SURFACE_TYPES + 23 ∧
    ¬ ∀ row ∈ (build_face_features [cePlaneGeom]).data, row.length = NUM_SURFACE_TYPES + 24 := by
  refine ⟨by decide, by decide⟩

/-- C4 (amended): every face row has width `surfaceTypeCount + 23 = 34`
(`FACE_FEATURE_DIM`), laid out as the one-hot surface type followed by
orientation, u_degree, v_degree, u_closed, v_closed, u_min, u_max, v_min,
v_max, plane_normal (3), plane_origin (3), axis_direction (3),
axis_origin (3), radius, radius2, with inapplicable fields zero-filled. -/
theorem claim_C4_face_row_width_and_layout (gs : List FaceGeometry) :
    (build_face_features gs).ncols = FACE_FEATURE_DIM ∧
    FACE_FEATURE_DIM = NUM_SURFACE_TYPES + 23 ∧
    (build_face_features gs).data = gs.map faceRowLayoutSpec ∧
    ∀ row ∈ (build_face_features gs).data, row.length = NUM_SURFACE_TYPES + 23 := by
  have hfun : faceFeatureRow = faceRowLayoutSpec := funext faceFeatureRow_eq_layout
  have hdata : (build_face_features gs).data = gs.map faceRowLayoutSpec := by
    cases gs with
    | nil => rfl
    | cons a l => show (a :: l).map faceFeatureRow = _; rw [hfun]
  refine ⟨by cases gs <;> rfl, rfl, hdata, ?_⟩
  intro row hrow
  rw [hdata] at hrow
  rcases List.mem_map.mp hrow with ⟨g, _, rfl⟩
  exact faceRowLayoutSpec_length g

/-- Witness for C4 (amended) at a concrete one-row input. -/
theorem claim_C4_witness :
    (build_face_features [cePlaneGeom]).ncols = FACE_FEATURE_DIM ∧
    (build_face_features [cePlaneGeom]).data = [cePlaneGeom].map faceRowLayoutSpec :=
  ⟨(claim_C4_face_row_width_and_layout [cePlaneGeom]).1,
   (claim_C4_face_row_width_and_layout [cePlaneGeom]).2.2.1⟩

theorem CURVE_TYPE_MAP_out_of_range (k : Nat) : CURVE_TYPE_MAP (k + 9) = none := rfl

theorem SURFACE_TYPE_MAP_out_of_range (k : Nat) : SURFACE_TYPE_MAP (k + 11) = none := rfl

/-- C7: an edge whose oracle type code is outside the nine recognized curve
codes, and a face whose code is outside the eleven recognized surface codes,
degrade to `OTHER` descriptors carrying only the generic fields (default
degrees, parametric domain, orientation, closed flags); extraction is total,
so no error is raised. -/
theorem claim_C7_unrecognized_tags_degrade (co : CurveOracle) (so : SurfaceOracle)
    (hc : 9 ≤ co.typeCode) (hs : 11 ≤ so.typeCode) :
    extract_edge_geometry co =
      { curve_type := .OTHER
        orientation := if co.orientationCode = 0 then 1 else -1
        degree := 1
        is_closed := co.isClosed
        t_min := co.firstParameter
        t_max := co.lastParameter } ∧
    extract_face_geometry so =
      { surface_type := .OTHER
        orientation := if so.orientationCode = 0 then 1 else -1
        u_degree := 1
        v_degree := 1
        is_u_closed := so.isUClosed
        is_v_closed := so.isVClosed
        u_min := so.firstUParameter
        u_max := so.lastUParameter
        v_min := so.firstVParameter
        v_max := so.lastVParameter } := by
  obtain ⟨k, hk⟩ : ∃ k, co.typeCode = k + 9 := ⟨co.typeCode - 9, by omega⟩
  obtain ⟨j, hj⟩ : ∃ j, so.typeCode = j + 11 := ⟨so.typeCode - 11, by omega⟩
  constructor
  · unfold extract_edge_geometry
    rw [hk, CURVE_TYPE_MAP_out_of_range]
    rfl
  · unfold extract_face_geometry
    rw [hj, SURFACE_TYPE_MAP_out_of_range]
    rfl

/-- An unrecognized curve oracle (`typeCode 42`). -/
def otherCurveOracle : CurveOracle := { zeroCurveOracle with typeCode := 42 }

/-- An unrecognized surface oracle (`typeCode 42`). -/
def otherSurfaceOracle : SurfaceOracle := { zeroSurfaceOracle with typeCode := 42 }

/-- Witness for C7 at `typeCode 42` oracles. -/
theorem claim_C7_witness :
    9 ≤ otherCurveOracle.typeCode ∧ 11 ≤ otherSurfaceOracle.typeCode ∧
    extract_edge_geometry otherCurveOracle =
      { curve_type := .OTHER
        orientation := if otherCurveOracle.orientationCode = 0 then 1 else -1
        degree := 1
        is_closed := otherCurveOracle.isClosed
        t_min := otherCurveOracle.firstParameter
        t_max := otherCurveOracle.lastParameter } :=
  ⟨by decide, by decide,
   (claim_C7_unrecognized_tags_degrade otherCurveOracle otherSurfaceOracle
     (by decide) (by decide)).1⟩

/-! ## Registration normal form (for C5)

`registerAll` is characterized by two reference functions: the
first-occurrence-by-token filter `keepFirstByToken` (the deduplicated
entity list in encounter order) and `mapOf` (the token-to-dense-index map
listing each kept entity's token at its position). -/

section Registration

variable {α : Type}

/-- Keep the first occurrence of each token, in encounter order. -/
def keepFirstAux (token : α → Nat) (acc : List α) : List α → List α
  | [] => acc
  | e :: rest =>
      if token e ∈ acc.map token then keepFirstAux token acc rest
      else keepFirstAux token (acc ++ [e]) rest

/-- `keepFirstAux` from the empty accumulator. -/
def keepFirstByToken (token : α → Nat) (trav : List α) : List α :=
  keepFirstAux token [] trav

/-- The token-to-index association list of a registry, indices from `n`. -/
def mapOfFrom (token : α → Nat) (n : Nat) : List α → List (Nat × Nat)
  | [] => []
  | e :: rest => (token e, n) :: mapOfFrom token (n + 1) rest

/-- The token-to-index association list of a registry. -/
def mapOf (token : α → Nat) (lst : List α) : List (Nat × Nat) :=
  mapOfFrom token 0 lst

theorem dictLookup_eq_none_iff (m : List (Nat × Nat)) (k : Nat) :
    dictLookup m k = none ↔ k ∉ m.map Prod.fst := by
  induction m with
  | nil => simp [dictLookup]
  | cons p rest ih =>
      obtain ⟨k', v⟩ := p
      simp only [dictLookup, List.map_cons, List.mem_cons]
      split
      · rename_i h; simp [h]
      · rename_i h; simp [h, ih]

theorem map_fst_mapOfFrom (token : α → Nat) (lst : List α) :
    ∀ n, (mapOfFrom token n lst).map Prod.fst = lst.map token := by
  induction lst with
  | nil => intro n; rfl
  | cons e rest ih => intro n; simp [mapOfFrom, ih]

theorem mapOfFrom_concat (token : α → Nat) (e : α) (lst : List α) :
    ∀ n, mapOfFrom token n (lst ++ [e]) = mapOfFrom token n lst ++ [(token e, n + lst.length)] := by
  induction lst with
  | nil => intro n; simp [mapOfFrom]
  | cons a rest ih =>
      intro n
      have harith : n + 1 + rest.length = n + (rest.length + 1) := by omega
      simp only [List.cons_append, mapOfFrom, List.length_cons, List.append_eq, ih (n + 1), harith]

theorem dictLookup_mapOfFrom_some (token : α → Nat) (lst : List α) :
    ∀ n k i, dictLookup (mapOfFrom token n lst) k = some i →
      ∃ j, i = n + j ∧ (lst.map token)[j]? = some k := by
  induction lst with
  | nil => intro n k i h; simp [mapOfFrom, dictLookup] at h
  | cons e rest ih =>
      intro n k i h
      simp only [mapOfFrom, dictLookup] at h
      split at h
      · rename_i hk
        simp only [Option.some.injEq] at h
        subst h
        exact ⟨0, by omega, by simp [hk]⟩
      · obtain ⟨j, hj, hv⟩ := ih (n + 1) k i h
        exact ⟨j + 1, by omega, by simpa using hv⟩

theorem dictLookup_mapOfFrom_mem (token : α → Nat) (lst : List α) (k : Nat) :
    ∀ n, k ∈ lst.map token → ∃ i, dictLookup (mapOfFrom token n lst) k = some i := by
  induction lst with
  | nil => intro n h; simp at h
  | cons e rest ih =>
      intro n h
      simp only [mapOfFrom, dictLookup]
      by_cases hk : k = token e
      · exact ⟨n, by rw [if_pos hk]⟩
      · have : k ∈ rest.map token := by
          rw [List.map_cons, List.mem_cons] at h
          tauto
        obtain ⟨i, hi⟩ := ih (n + 1) this
        exact ⟨i, by rw [if_neg hk]; exact hi⟩

theorem foldl_registerStep (token : α → Nat) :
    ∀ (trav acc : List α),
      trav.foldl (registerStep token) (mapOf token acc, acc) =
        (mapOf token (keepFirstAux token acc trav), keepFirstAux token acc trav) := by
  intro trav
  induction trav with
  | nil => intro acc; rfl
  | cons e rest ih =>
      intro acc
      rw [List.foldl_cons]
      by_cases h : token e ∈ acc.map token
      · have hstep : registerStep token (mapOf token acc, acc) e = (mapOf token acc, acc) := by
          obtain ⟨i, hi⟩ := dictLookup_mapOfFrom_mem token acc (token e) 0 h
          unfold registerStep _shape_hash
          rw [show dictLookup (mapOf token acc, acc).1 (token e) = some i from hi]
        rw [hstep, show keepFirstAux token acc (e :: rest) = keepFirstAux token acc rest from by
          simp [keepFirstAux, h]]
        exact ih acc
      · have hnone : dictLookup (mapOf token acc) (token e) = none :=
          (dictLookup_eq_none_iff _ _).mpr (by rw [mapOf, map_fst_mapOfFrom]; exact h)
        have hstep : registerStep token (mapOf token acc, acc) e =
            (mapOf token (acc ++ [e]), acc ++ [e]) := by
          unfold registerStep _shape_hash
          rw [show dictLookup (mapOf token acc, acc).1 (token e) = none from hnone]
          show (mapOfFrom token 0 acc ++ [(token e, acc.length)], acc ++ [e]) =
            (mapOfFrom token 0 (acc ++ [e]), acc ++ [e])
          rw [mapOfFrom_concat]
          simp
        rw [hstep, show keepFirstAux token acc (e :: rest) = keepFirstAux token (acc ++ [e]) rest from by
          simp [keepFirstAux, h]]
        exact ih (acc ++ [e])

theorem registerAll_eq (token : α → Nat) (trav : List α) :
    registerAll token trav =
      (mapOf token (keepFirstByToken token trav), keepFirstByToken token trav) := by
  have h := foldl_registerStep token trav []
  simpa [registerAll, keepFirstByToken, mapOf, mapOfFrom] using h

theorem mem_map_token_keepFirstAux (token : α → Nat) :
    ∀ (trav acc : List α) (x : Nat),
      x ∈ (keepFirstAux token acc trav).map token ↔
        x ∈ acc.map token ∨ x ∈ trav.map token := by
  intro trav
  induction trav with
  | nil => intro acc x; simp [keepFirstAux]
  | cons e rest ih =>
      intro acc x
      by_cases h : token e ∈ acc.map token
      · rw [show keepFirstAux token acc (e :: rest) = keepFirstAux token acc rest from by
          simp [keepFirstAux, h], ih]
        have habs : x = token e → x ∈ acc.map token := fun hx => hx ▸ h
        simp only [List.map_cons, List.mem_cons]
        tauto
      · rw [show keepFirstAux token acc (e :: rest) = keepFirstAux token (acc ++ [e]) rest from by
          simp [keepFirstAux, h], ih]
        simp only [List.map_append, List.map_cons, List.map_nil, List.mem_append,
          List.mem_cons, List.mem_singleton]
        tauto

theorem nodup_keepFirstAux (token : α → Nat) :
    ∀ (trav acc : List α), (acc.map token).Nodup →
      ((keepFirstAux token acc trav).map token).Nodup := by
  intro trav
  induction trav with
  | nil => intro acc h; exact h
  | cons e rest ih =>
      intro acc h
      by_cases hm : token e ∈ acc.map token
      · rw [show keepFirstAux token acc (e :: rest) = keepFirstAux token acc rest from by
          simp [keepFirstAux, hm]]
        exact ih acc h
      · rw [show keepFirstAux token acc (e :: rest) = keepFirstAux token (acc ++ [e]) rest from by
          simp [keepFirstAux, hm]]
        refine ih (acc ++ [e]) ?_
        rw [List.map_append]
        simp [List.nodup_append, h, hm]

theorem length_keepFirst_card (token : α → Nat) (trav : List α) :
    (keepFirstByToken token trav).length = (trav.map token).toFinset.card := by
  have hnd : ((keepFirstByToken token trav).map token).Nodup :=
    nodup_keepFirstAux token trav [] (by simp)
  have hfin : ((keepFirstByToken token trav).map token).toFinset =
      (trav.map token).toFinset := by
    ext x
    simpa [List.mem_toFinset] using mem_map_token_keepFirstAux token trav [] x
  calc (keepFirstByToken token trav).length
      = ((keepFirstByToken token trav).map token).length := (List.length_map _ _).symm
    _ = ((keepFirstByToken token trav).map token).toFinset.card :=
        (List.toFinset_card_of_nodup hnd).symm
    _ = (trav.map token).toFinset.card := by rw [hfin]

/-- The registration contract of C5: the kept list is the traversal
deduplicated by identity token in first-seen order; the map sends each kept
token to its dense index; tokens of kept entities are pairwise distinct; the
entity count equals the number of distinct tokens encountered; every
traversed entity's token resolves to an in-range index; and two traversed
entities resolve to the same index iff their identity tokens are equal
(coordinates play no part). -/
def registrationSpec (token : α → Nat) (trav : List α)
    (m : List (Nat × Nat)) (lst : List α) : Prop :=
  lst = keepFirstByToken token trav ∧
  m = mapOf token lst ∧
  (lst.map token).Nodup ∧
  lst.length = (trav.map token).toFinset.card ∧
  (∀ e ∈ trav, ∃ i, dictLookup m (token e) = some i ∧ i < lst.length) ∧
  (∀ e₁ ∈ trav, ∀ e₂ ∈ trav,
    (dictLookup m (token e₁) = dictLookup m (token e₂) ↔ token e₁ = token e₂))

theorem registerAll_spec (token : α → Nat) (trav : List α) :
    registrationSpec token trav (registerAll token trav).1 (registerAll token trav).2 := by
  rw [registerAll_eq]
  set L := keepFirstByToken token trav with hL
  have hmm : ∀ e ∈ trav, token e ∈ L.map token := fun e he => by
    rw [hL]
    exact (mem_map_token_keepFirstAux token trav [] (token e)).mpr
      (Or.inr (List.mem_map_of_mem token he))
  have hex : ∀ e ∈ trav, ∃ i, dictLookup (mapOf token L) (token e) = some i ∧ i < L.length := by
    intro e he
    obtain ⟨i, hi⟩ := dictLookup_mapOfFrom_mem token L (token e) 0 (hmm e he)
    refine ⟨i, hi, ?_⟩
    obtain ⟨j, hj, hv⟩ := dictLookup_mapOfFrom_some token L 0 (token e) i hi
    have : j < (L.map token).length := by
      rcases List.getElem?_eq_some.mp hv with ⟨hlt, _⟩
      exact hlt
    rw [List.length_map] at this
    omega
  refine ⟨rfl, rfl, nodup_keepFirstAux token trav [] (by simp),
    length_keepFirst_card token trav, hex, ?_⟩
  intro e₁ h₁ e₂ h₂
  constructor
  · intro heq
    obtain ⟨i₁, hi₁, _⟩ := hex e₁ h₁
    obtain ⟨i₂, hi₂, _⟩ := hex e₂ h₂
    rw [hi₁, hi₂] at heq
    obtain rfl : i₁ = i₂ := Option.some_injective _ heq
    obtain ⟨j₁, hj₁, hv₁⟩ := dictLookup_mapOfFrom_some token L 0 (token e₁) i₁ hi₁
    obtain ⟨j₂, hj₂, hv₂⟩ := dictLookup_mapOfFrom_some token L 0 (token e₂) i₁ hi₂
    obtain rfl : j₁ = j₂ := by omega
    rw [hv₁] at hv₂
    exact Option.some_injective _ hv₂
  · intro heq
    rw [heq]

end Registration

/-- C5: `extract_topology` registers each vertex, edge and face exactly once
per identity token, with dense first-seen indices; entity counts equal
distinct-token counts; equal index iff equal token, never by coordinates. -/
theorem claim_C5_registration (s : OracleShape) :
    registrationSpec VertexEnt.token s.vertexTrav
      (extract_topology s).vertex_map (extract_topology s).vertices ∧
    registrationSpec EdgeEnt.token s.edgeTrav
      (extract_topology s).edge_map (extract_topology s).edges ∧
    registrationSpec FaceEnt.token s.faceTrav
      (extract_topology s).face_map (extract_topology s).faces :=
  ⟨registerAll_spec VertexEnt.token s.vertexTrav,
   registerAll_spec EdgeEnt.token s.edgeTrav,
   registerAll_spec FaceEnt.token s.faceTrav⟩

/-- Witness for C5 on a shape with a repeated vertex token and two
coincident-coordinate but distinct-token vertices. -/
theorem claim_C5_witness :
    registrationSpec VertexEnt.token dupOracle.vertexTrav
      (extract_topology dupOracle).vertex_map (extract_topology dupOracle).vertices ∧
    registrationSpec EdgeEnt.token dupOracle.edgeTrav
      (extract_topology dupOracle).edge_map (extract_topology dupOracle).edges ∧
    registrationSpec FaceEnt.token dupOracle.faceTrav
      (extract_topology dupOracle).face_map (extract_topology dupOracle).faces :=
  claim_C5_registration dupOracle

/-! ## Control-point collection normal form (for C8 and C9) -/

/-- The control points a descriptor contributes (empty for `None`). -/
def cpsOfEdge (g : EdgeGeometry) : List ControlPoint := g.control_points.getD []

/-- The control points a face descriptor contributes (empty for `None`). -/
def cpsOfFace (g : FaceGeometry) : List ControlPoint := g.control_points.getD []

theorem foldl_edgeCpStep (ei : Nat) :
    ∀ (cps : List ControlPoint) (st : CollectState),
      cps.foldl (edgeCpStep ei) st =
        { st with
          control_points := st.control_points ++ cps
          cp_to_edge := st.cp_to_edge ++
            (List.range cps.length).map (fun j => (st.control_points.length + j, ei))
          cp_to_edge_attr := st.cp_to_edge_attr ++ cps.map (fun cp => cp.index) } := by
  intro cps
  induction cps with
  | nil => intro st; simp
  | cons cp rest ih =>
      intro st
      rw [List.foldl_cons, ih (edgeCpStep ei st cp)]
      have hfun : (fun j => st.control_points.length + 1 + j) =
          (fun j => st.control_points.length + (j + 1)) := funext fun j => by omega
      simp only [edgeCpStep, CollectState.mk.injEq, List.length_append, List.length_cons,
        List.length_nil, List.append_assoc, List.cons_append, List.nil_append,
        List.singleton_append, List.map_cons, List.range_succ_eq_map, List.map_map,
        Nat.add_zero, Function.comp, hfun]
      refine ⟨?_, ?_, ?_, ?_, ?_⟩ <;> trivial

theorem foldl_faceCpStep (fi : Nat) :
    ∀ (cps : List ControlPoint) (st : CollectState),
      cps.foldl (faceCpStep fi) st =
        { st with
          control_points := st.control_points ++ cps
          cp_to_face := st.cp_to_face ++
            (List.range cps.length).map (fun j => (st.control_points.length + j, fi))
          cp_to_face_attr := st.cp_to_face_attr ++ cps.map (fun cp => cp.index) } := by
  intro cps
  induction cps with
  | nil => intro st; simp
  | cons cp rest ih =>
      intro st
      rw [List.foldl_cons, ih (faceCpStep fi st cp)]
      have hfun : (fun j => st.control_points.length + 1 + j) =
          (fun j => st.control_points.length + (j + 1)) := funext fun j => by omega
      simp only [faceCpStep, CollectState.mk.injEq, List.length_append, List.length_cons,
        List.length_nil, List.append_assoc, List.cons_append, List.nil_append,
        List.singleton_append, List.map_cons, List.range_succ_eq_map, List.map_map,
        Nat.add_zero, Function.comp, hfun]
      refine ⟨?_, ?_, ?_, ?_, ?_⟩ <;> trivial

/-- The `(cp_idx, entity_idx)` pairs of a run of chunks, global indices
starting at `base`. -/
def idxPairsFrom (base : Nat) : List (Nat × List ControlPoint) → List (Nat × Nat)
  | [] => []
  | c :: rest =>
      (List.range c.2.length).map (fun j => (base + j, c.1)) ++
        idxPairsFrom (base + c.2.length) rest

theorem foldl_edgeLoop :
    ∀ (L : List (Nat × EdgeGeometry)) (st : CollectState),
      L.foldl (fun st p => (p.2.control_points.getD []).foldl (edgeCpStep p.1) st) st =
        { st with
          control_points := st.control_points ++ L.flatMap (fun p => cpsOfEdge p.2)
          cp_to_edge := st.cp_to_edge ++
            idxPairsFrom st.control_points.length (L.map (fun p => (p.1, cpsOfEdge p.2)))
          cp_to_edge_attr := st.cp_to_edge_attr ++
            L.flatMap (fun p => (cpsOfEdge p.2).map (fun cp => cp.index)) } := by
  intro L
  induction L with
  | nil => intro st; simp [idxPairsFrom]
  | cons p rest ih =>
      intro st
      rw [List.foldl_cons,
        show (p.2.control_points.getD []).foldl (edgeCpStep p.1) st =
          (cpsOfEdge p.2).foldl (edgeCpStep p.1) st from rfl,
        foldl_edgeCpStep, ih]
      simp only [CollectState.mk.injEq, List.map_cons, idxPairsFrom, List.flatMap_cons,
        List.append_assoc, List.length_append]

theorem foldl_faceLoop :
    ∀ (L : List (Nat × FaceGeometry)) (st : CollectState),
      L.foldl (fun st p => (p.2.control_points.getD []).foldl (faceCpStep p.1) st) st =
        { st with
          control_points := st.control_points ++ L.flatMap (fun p => cpsOfFace p.2)
          cp_to_face := st.cp_to_face ++
            idxPairsFrom st.control_points.length (L.map (fun p => (p.1, cpsOfFace p.2)))
          cp_to_face_attr := st.cp_to_face_attr ++
            L.flatMap (fun p => (cpsOfFace p.2).map (fun cp => cp.index)) } := by
  intro L
  induction L with
  | nil => intro st; simp [idxPairsFrom]
  | cons p rest ih =>
      intro st
      rw [List.foldl_cons,
        show (p.2.control_points.getD []).foldl (faceCpStep p.1) st =
          (cpsOfFace p.2).foldl (faceCpStep p.1) st from rfl,
        foldl_faceCpStep, ih]
      simp only [CollectState.mk.injEq, List.map_cons, idxPairsFrom, List.flatMap_cons,
        List.append_assoc, List.length_append]

theorem collectControlPoints_eq (eg : List EdgeGeometry) (fg : List FaceGeometry) :
    collectControlPoints eg fg =
      { control_points := eg.enum.flatMap (fun p => cpsOfEdge p.2) ++
          fg.enum.flatMap (fun p => cpsOfFace p.2)
        cp_to_edge := idxPairsFrom 0 (eg.enum.map (fun p => (p.1, cpsOfEdge p.2)))
        cp_to_edge_attr := eg.enum.flatMap (fun p => (cpsOfEdge p.2).map (fun cp => cp.index))
        cp_to_face := idxPairsFrom (eg.enum.flatMap (fun p => cpsOfEdge p.2)).length
          (fg.enum.map (fun p => (p.1, cpsOfFace p.2)))
        cp_to_face_attr := fg.enum.flatMap (fun p => (cpsOfFace p.2).map (fun cp => cp.index)) } := by
  show fg.enum.foldl (fun st p => (p.2.control_points.getD []).foldl (faceCpStep p.1) st)
      (eg.enum.foldl (fun st p => (p.2.control_points.getD []).foldl (edgeCpStep p.1) st)
        ⟨[], [], [], [], []⟩) = _
  rw [foldl_edgeLoop, foldl_faceLoop]
  simp

/-- The tags carried by the relation entries whose target is entity `k`,
in relation order. -/
def tagsFor (pairs : List (Nat × Nat)) (attrs : List (List Nat)) (k : Nat) :
    List (List Nat) :=
  (pairs.zip attrs).filterMap (fun pa => if pa.1.2 = k then some pa.2 else none)

/-- All `(u, v)` grid positions of an `m × n` grid in row-major order. -/
def rowMajorTags (m n : Nat) : List (List Nat) :=
  (List.range m).flatMap (fun u => (List.range n).map (fun v => [u, v]))

/-- The pole-grid dimensions the source reads for a face (zero when the
surface type stores no control points). -/
def gridDims (o : SurfaceOracle) : Nat × Nat :=
  match (SURFACE_TYPE_MAP o.typeCode).getD SurfaceType.OTHER with
  | .BSPLINE => (o.bsplineNbUPoles, o.bsplineNbVPoles)
  | .BEZIER => (o.bezierNbUPoles, o.bezierNbVPoles)
  | _ => (0, 0)

theorem zip_map_snd_pairs {β : Type} :
    ∀ (ps : List (Nat × Nat)) (as_ : List β),
      (ps.zip as_).map (fun pa => (pa.1.2, pa.2)) = (ps.map Prod.snd).zip as_ := by
  intro ps
  induction ps with
  | nil => intro as_; simp
  | cons p rest ih =>
      intro as_
      cases as_ with
      | nil => simp
      | cons a tl => simp [ih tl]

theorem map_snd_idxPairsFrom :
    ∀ (chunks : List (Nat × List ControlPoint)) (base : Nat),
      (idxPairsFrom base chunks).map Prod.snd =
        chunks.flatMap (fun c => c.2.map (fun _ => c.1)) := by
  intro chunks
  induction chunks with
  | nil => intro base; simp [idxPairsFrom]
  | cons c rest ih =>
      intro base
      simp only [idxPairsFrom, List.map_append, List.map_map, ih (base + c.2.length),
        List.flatMap_cons]
      rw [show (Prod.snd ∘ fun j => (base + j, c.1)) = (fun _ : Nat => c.1) from rfl,
        List.map_const', List.length_range,
        show (fun x => c.1) = (fun _ : ControlPoint => c.1) from rfl,
        List.map_const']

theorem zip_flatMap_edge :
    ∀ L : List (Nat × EdgeGeometry),
      (L.flatMap (fun p => (cpsOfEdge p.2).map (fun _ => p.1))).zip
          (L.flatMap (fun p => (cpsOfEdge p.2).map (fun cp => cp.index))) =
        L.flatMap (fun p => (cpsOfEdge p.2).map (fun cp => (p.1, cp.index))) := by
  intro L
  induction L with
  | nil => rfl
  | cons p rest ih =>
      simp only [List.flatMap_cons]
      rw [List.zip_append (by simp), ih, List.zip_map']

theorem zip_flatMap_face :
    ∀ L : List (Nat × FaceGeometry),
      (L.flatMap (fun p => (cpsOfFace p.2).map (fun _ => p.1))).zip
          (L.flatMap (fun p => (cpsOfFace p.2).map (fun cp => cp.index))) =
        L.flatMap (fun p => (cpsOfFace p.2).map (fun cp => (p.1, cp.index))) := by
  intro L
  induction L with
  | nil => rfl
  | cons p rest ih =>
      simp only [List.flatMap_cons]
      rw [List.zip_append (by simp), ih, List.zip_map']

theorem filterMap_const_chunk {β : Type} (xs : List β) (n k : Nat) :
    (xs.map (fun x => (n, x))).filterMap (fun q => if q.1 = k then some q.2 else none) =
      if n = k then xs else [] := by
  induction xs with
  | nil => simp
  | cons x rest ih =>
      by_cases h : n = k
      · subst h
        simp only [List.map_cons, List.filterMap_cons, if_pos rfl] at ih ⊢
        simp [ih]
      · simp only [List.map_cons, List.filterMap_cons] at ih ⊢
        simp [h, ih]

theorem filterMap_enumFrom_chunks {β : Type} :
    ∀ (L : List (List β)) (n k : Nat),
      ((L.enumFrom n).flatMap (fun p => p.2.map (fun x => (p.1, x)))).filterMap
          (fun q => if q.1 = k then some q.2 else none) =
        if n ≤ k ∧ k < n + L.length then L.getD (k - n) [] else [] := by
  intro L
  induction L with
  | nil =>
      intro n k
      simp only [List.enumFrom_nil, List.flatMap_nil, List.filterMap_nil, List.length_nil]
      rw [if_neg (by omega)]
  | cons xs L ih =>
      intro n k
      simp only [List.enumFrom_cons, List.flatMap_cons, List.filterMap_append,
        filterMap_const_chunk, List.length_cons]
      rw [ih (n + 1) k]
      by_cases h : n = k
      · subst h
        rw [if_pos rfl, if_neg (by omega), if_pos (by omega)]
        simp
      · rw [if_neg h]
        by_cases h2 : n + 1 ≤ k ∧ k < (n + 1) + L.length
        · rw [if_pos h2, if_pos (by omega)]
          have harith : k - n = (k - (n + 1)) + 1 := by omega
          rw [harith]
          simp
        · rw [if_neg h2, if_neg (by omega)]
          simp

theorem enumFrom_map_flatMap {β γ : Type} (f : γ → List β) :
    ∀ (l : List γ) (n : Nat),
      ((l.map f).enumFrom n).flatMap (fun p => p.2.map (fun x => (p.1, x))) =
        (l.enumFrom n).flatMap (fun p => (f p.2).map (fun x => (p.1, x))) := by
  intro l
  induction l with
  | nil => intro n; rfl
  | cons g rest ih =>
      intro n
      simp only [List.map_cons, List.enumFrom_cons, List.flatMap_cons, ih (n + 1)]

theorem getD_map_get {β γ : Type} (f : β → γ) (l : List β) (e : Nat)
    (he : e < l.length) (d : γ) :
    (l.map f).getD e d = f (l.get ⟨e, he⟩) := by
  rw [List.getD_eq_getElem?_getD, List.getElem?_map, List.getElem?_eq_getElem he]
  simp [List.get_eq_getElem]

theorem tagsFor_collect_edge (eg : List EdgeGeometry) (fg : List FaceGeometry)
    (e : Nat) (he : e < eg.length) :
    tagsFor (collectControlPoints eg fg).cp_to_edge
      (collectControlPoints eg fg).cp_to_edge_attr e =
      (cpsOfEdge (eg.get ⟨e, he⟩)).map (fun cp => cp.index) := by
  unfold tagsFor
  rw [show (collectControlPoints eg fg).cp_to_edge =
        idxPairsFrom 0 (eg.enum.map (fun p => (p.1, cpsOfEdge p.2))) from by
      rw [collectControlPoints_eq],
    show (collectControlPoints eg fg).cp_to_edge_attr =
        eg.enum.flatMap (fun p => (cpsOfEdge p.2).map (fun cp => cp.index)) from by
      rw [collectControlPoints_eq]]
  have hcomp : (fun pa : (Nat × Nat) × List Nat => if pa.1.2 = e then some pa.2 else none) =
      (fun q : Nat × List Nat => if q.1 = e then some q.2 else none) ∘
        (fun pa : (Nat × Nat) × List Nat => (pa.1.2, pa.2)) := rfl
  rw [hcomp, ← List.filterMap_map, zip_map_snd_pairs, map_snd_idxPairsFrom]
  rw [show (eg.enum.map (fun p => (p.1, cpsOfEdge p.2))).flatMap
        (fun c => c.2.map (fun _ => c.1)) =
      eg.enum.flatMap (fun p => (cpsOfEdge p.2).map (fun _ => p.1)) from by
    rw [List.flatMap_map]]
  rw [zip_flatMap_edge]
  rw [show eg.enum.flatMap (fun p => (cpsOfEdge p.2).map (fun cp => (p.1, cp.index))) =
      ((eg.map (fun g => (cpsOfEdge g).map (fun cp => cp.index))).enumFrom 0).flatMap
        (fun p => p.2.map (fun x => (p.1, x))) from by
    rw [enumFrom_map_flatMap]
    simp only [List.map_map, List.enum_eq_enumFrom]
    rfl]
  rw [filterMap_enumFrom_chunks, if_pos (by simp; omega)]
  rw [show e - 0 = e from rfl]
  exact getD_map_get _ eg e he []

theorem tagsFor_collect_face (eg : List EdgeGeometry) (fg : List FaceGeometry)
    (f : Nat) (hf : f < fg.length) :
    tagsFor (collectControlPoints eg fg).cp_to_face
      (collectControlPoints eg fg).cp_to_face_attr f =
      (cpsOfFace (fg.get ⟨f, hf⟩)).map (fun cp => cp.index) := by
  unfold tagsFor
  rw [show (collectControlPoints eg fg).cp_to_face =
        idxPairsFrom (eg.enum.flatMap (fun p => cpsOfEdge p.2)).length
          (fg.enum.map (fun p => (p.1, cpsOfFace p.2))) from by
      rw [collectControlPoints_eq],
    show (collectControlPoints eg fg).cp_to_face_attr =
        fg.enum.flatMap (fun p => (cpsOfFace p.2).map (fun cp => cp.index)) from by
      rw [collectControlPoints_eq]]
  have hcomp : (fun pa : (Nat × Nat) × List Nat => if pa.1.2 = f then some pa.2 else none) =
      (fun q : Nat × List Nat => if q.1 = f then some q.2 else none) ∘
        (fun pa : (Nat × Nat) × List Nat => (pa.1.2, pa.2)) := rfl
  rw [hcomp, ← List.filterMap_map, zip_map_snd_pairs, map_snd_idxPairsFrom]
  rw [show (fg.enum.map (fun p => (p.1, cpsOfFace p.2))).flatMap
        (fun c => c.2.map (fun _ => c.1)) =
      fg.enum.flatMap (fun p => (cpsOfFace p.2).map (fun _ => p.1)) from by
    rw [List.flatMap_map]]
  rw [zip_flatMap_face]
  rw [show fg.enum.flatMap (fun p => (cpsOfFace p.2).map (fun cp => (p.1, cp.index))) =
      ((fg.map (fun g => (cpsOfFace g).map (fun cp => cp.index))).enumFrom 0).flatMap
        (fun p => p.2.map (fun x => (p.1, x))) from by
    rw [enumFrom_map_flatMap]
    simp only [List.map_map, List.enum_eq_enumFrom]
    rfl]
  rw [filterMap_enumFrom_chunks, if_pos (by simp; omega)]
  rw [show f - 0 = f from rfl]
  exact getD_map_get _ fg f hf []

theorem extract_edge_tags (o : CurveOracle) :
    (cpsOfEdge (extract_edge_geometry o)).map (fun cp => cp.index) =
      (List.range (cpsOfEdge (extract_edge_geometry o)).length).map (fun i => [i]) := by
  rcases hct : (CURVE_TYPE_MAP o.typeCode).getD CurveType.OTHER <;>
    simp [extract_edge_geometry, cpsOfEdge, hct, List.map_map, Function.comp]

theorem extract_face_tags (o : SurfaceOracle) :
    (cpsOfFace (extract_face_geometry o)).map (fun cp => cp.index) =
      rowMajorTags (gridDims o).1 (gridDims o).2 := by
  rcases hct : (SURFACE_TYPE_MAP o.typeCode).getD SurfaceType.OTHER <;>
    simp [extract_face_geometry, cpsOfFace, gridDims, rowMajorTags, hct,
      List.map_flatMap, List.map_map, Function.comp] <;> rfl

/-- C8: with descriptors produced by geometry extraction, the assembler's
(control_point, controls, edge) relation carries, for edge `e` with `n`
stored control points, exactly the tags `[0], [1], .., [n-1]` in order; and
its (control_point, controls, face) relation carries, for face `f` with an
`m × k` pole grid, exactly the `(u, v)` tags of the full grid in row-major
order. -/
theorem claim_C8_control_point_tags (edgeOracles : List CurveOracle)
    (faceOracles : List SurfaceOracle) (e f : Nat)
    (he : e < edgeOracles.length) (hf : f < faceOracles.length) :
    tagsFor (collectControlPoints (edgeOracles.map extract_edge_geometry)
        (faceOracles.map extract_face_geometry)).cp_to_edge
      (collectControlPoints (edgeOracles.map extract_edge_geometry)
        (faceOracles.map extract_face_geometry)).cp_to_edge_attr e =
      (List.range
        (cpsOfEdge (extract_edge_geometry (edgeOracles.get ⟨e, he⟩))).length).map
        (fun i => [i]) ∧
    tagsFor (collectControlPoints (edgeOracles.map extract_edge_geometry)
        (faceOracles.map extract_face_geometry)).cp_to_face
      (collectControlPoints (edgeOracles.map extract_edge_geometry)
        (faceOracles.map extract_face_geometry)).cp_to_face_attr f =
      rowMajorTags (gridDims (faceOracles.get ⟨f, hf⟩)).1
        (gridDims (faceOracles.get ⟨f, hf⟩)).2 := by
  have he' : e < (edgeOracles.map extract_edge_geometry).length := by
    rw [List.length_map]; exact he
  have hf' : f < (faceOracles.map extract_face_geometry).length := by
    rw [List.length_map]; exact hf
  constructor
  · rw [tagsFor_collect_edge _ _ e he']
    rw [show (edgeOracles.map extract_edge_geometry).get ⟨e, he'⟩ =
        extract_edge_geometry (edgeOracles.get ⟨e, he⟩) from by
      simp [List.get_eq_getElem, List.getElem_map]]
    exact extract_edge_tags _
  · rw [tagsFor_collect_face _ _ f hf']
    rw [show (faceOracles.map extract_face_geometry).get ⟨f, hf'⟩ =
        extract_face_geometry (faceOracles.get ⟨f, hf⟩) from by
      simp [List.get_eq_getElem, List.getElem_map]]
    exact extract_face_tags _

/-- A b-spline curve oracle with three poles. -/
def bsplineCurveOracle : CurveOracle :=
  { zeroCurveOracle with
    typeCode := 6
    bsplineDegree := 2
    bsplineNbPoles := 3
    bsplinePole := fun i => ((i : ℚ), 0, 0) }

/-- A b-spline surface oracle with a 2 × 2 pole grid. -/
def bsplineSurfaceOracle : SurfaceOracle :=
  { zeroSurfaceOracle with
    typeCode := 6
    bsplineNbUPoles := 2
    bsplineNbVPoles := 2
    bsplinePole := fun u v => ((u : ℚ), (v : ℚ), 0) }

/-- Witness for C8 on one 3-pole b-spline edge and one 2×2 b-spline face. -/
theorem claim_C8_witness :
    0 < [bsplineCurveOracle].length ∧ 0 < [bsplineSurfaceOracle].length ∧
    tagsFor (collectControlPoints ([bsplineCurveOracle].map extract_edge_geometry)
        ([bsplineSurfaceOracle].map extract_face_geometry)).cp_to_edge
      (collectControlPoints ([bsplineCurveOracle].map extract_edge_geometry)
        ([bsplineSurfaceOracle].map extract_face_geometry)).cp_to_edge_attr 0 =
      (List.range
        (cpsOfEdge (extract_edge_geometry ([bsplineCurveOracle].get ⟨0, by decide⟩))).length).map
        (fun i => [i]) ∧
    tagsFor (collectControlPoints ([bsplineCurveOracle].map extract_edge_geometry)
        ([bsplineSurfaceOracle].map extract_face_geometry)).cp_to_face
      (collectControlPoints ([bsplineCurveOracle].map extract_edge_geometry)
        ([bsplineSurfaceOracle].map extract_face_geometry)).cp_to_face_attr 0 =
      rowMajorTags (gridDims ([bsplineSurfaceOracle].get ⟨0, by decide⟩)).1
        (gridDims ([bsplineSurfaceOracle].get ⟨0, by decide⟩)).2 :=
  ⟨by decide, by decide,
   (claim_C8_control_point_tags [bsplineCurveOracle] [bsplineSurfaceOracle] 0 0
     (by decide) (by decide)).1,
   (claim_C8_control_point_tags [bsplineCurveOracle] [bsplineSurfaceOracle] 0 0
     (by decide) (by decide)).2⟩

/-! ## Degenerate inputs (for C9) -/

theorem foldl_const_acc {β γ : Type} : ∀ (l : List γ) (a : β),
    l.foldl (fun a _ => a) a = a := by
  intro l
  induction l with
  | nil => intro a; rfl
  | cons x rest ih => intro a; rw [List.foldl_cons]; exact ih a

theorem registerAll_nil {α : Type} (token : α → Nat) :
    registerAll token [] = ([], []) := rfl

theorem buildVertexToEdge_nil_map (s : OracleShape) (edges : List EdgeEnt) :
    buildVertexToEdge s [] edges = [] := by
  show edges.enum.foldl (fun acc p => (s.edgeVerts p.2).foldl (fun acc _ => acc) acc) [] = []
  simp [foldl_const_acc]

theorem buildEdgeToFace_nil_map (s : OracleShape) (faces : List FaceEnt) :
    buildEdgeToFace s [] faces = [] := by
  show faces.enum.foldl (fun acc p => (s.faceEdges p.2).foldl (fun acc _ => acc) acc) [] = []
  simp [foldl_const_acc]

theorem adjacentFaceIndices_nil (faces : List FaceEnt) :
    adjacentFaceIndices [] faces = [] := by
  show faces.foldl (fun acc _ => acc) [] = []
  exact foldl_const_acc faces []

theorem addPairsForEdge_nil (st : List (Nat × Nat) × List (Nat × Nat)) :
    addPairsForEdge [] st = st := rfl

theorem foldl_addPairs_nil_map :
    ∀ (L : List (EdgeEnt × List FaceEnt)) (init : List (Nat × Nat) × List (Nat × Nat)),
      L.foldl (fun st entry => addPairsForEdge (adjacentFaceIndices [] entry.2) st) init =
        init := by
  intro L
  induction L with
  | nil => intro init; rfl
  | cons entry rest ih =>
      intro init
      rw [List.foldl_cons, adjacentFaceIndices_nil, addPairsForEdge_nil]
      exact ih init

theorem snd_mem_of_mem_enumFrom {β : Type} :
    ∀ (l : List β) (n : Nat) (p : Nat × β), p ∈ l.enumFrom n → p.2 ∈ l := by
  intro l
  induction l with
  | nil => intro n p h; simp at h
  | cons x rest ih =>
      intro n p h
      rw [List.enumFrom_cons, List.mem_cons] at h
      rcases h with h | h
      · subst h; simp
      · exact List.mem_cons_of_mem _ (ih (n + 1) p h)

theorem flatMap_nil_of {β γ : Type} :
    ∀ (L : List β) (c : β → List γ), (∀ x ∈ L, c x = []) → L.flatMap c = [] := by
  intro L
  induction L with
  | nil => intro c _; rfl
  | cons x rest ih =>
      intro c h
      rw [List.flatMap_cons, h x (List.mem_cons_self x rest), List.nil_append]
      exact ih c (fun y hy => h y (List.mem_cons_of_mem x hy))

theorem idxPairsFrom_nil_chunks :
    ∀ (chunks : List (Nat × List ControlPoint)) (base : Nat),
      (∀ c ∈ chunks, c.2 = []) → idxPairsFrom base chunks = [] := by
  intro chunks
  induction chunks with
  | nil => intro base _; rfl
  | cons c rest ih =>
      intro base h
      rw [idxPairsFrom, h c (List.mem_cons_self c rest)]
      simp only [List.length_nil, List.range_zero, List.map_nil, List.nil_append,
        Nat.add_zero]
      exact ih (base + 0) (fun y hy => h y (List.mem_cons_of_mem c hy))

/-! Definitional component equations of `extract_topology` and `convertShape`. -/

theorem extract_topology_vertices (s : OracleShape) :
    (extract_topology s).vertices = (registerAll VertexEnt.token s.vertexTrav).2 := rfl

theorem extract_topology_edges (s : OracleShape) :
    (extract_topology s).edges = (registerAll EdgeEnt.token s.edgeTrav).2 := rfl

theorem extract_topology_faces (s : OracleShape) :
    (extract_topology s).faces = (registerAll FaceEnt.token s.faceTrav).2 := rfl

theorem extract_topology_v2e (s : OracleShape) :
    (extract_topology s).vertex_to_edge =
      buildVertexToEdge s (registerAll VertexEnt.token s.vertexTrav).1
        (registerAll EdgeEnt.token s.edgeTrav).2 := rfl

theorem extract_topology_e2f (s : OracleShape) :
    (extract_topology s).edge_to_face =
      buildEdgeToFace s (registerAll EdgeEnt.token s.edgeTrav).1
        (registerAll FaceEnt.token s.faceTrav).2 := rfl

theorem extract_topology_f2f (s : OracleShape) :
    (extract_topology s).face_to_face =
      (s.edgeFaceMap.foldl (fun st entry =>
        addPairsForEdge
          (adjacentFaceIndices (registerAll FaceEnt.token s.faceTrav).1 entry.2) st)
        ([], [])).2 := rfl

/-- The edge descriptors `convertShape` builds. -/
def edgeGeomsOf (s : OracleShape) : List EdgeGeometry :=
  (extract_topology s).edges.map (fun e => extract_edge_geometry e.curve)

/-- The face descriptors `convertShape` builds. -/
def faceGeomsOf (s : OracleShape) : List FaceGeometry :=
  (extract_topology s).faces.map (fun f => extract_face_geometry f.surf)

theorem convertShape_vertex_x (s : OracleShape) :
    (convertShape s).vertex_x =
      build_vertex_features ((extract_topology s).vertices.map extract_vertex_geometry) := rfl

theorem convertShape_edge_x (s : OracleShape) :
    (convertShape s).edge_x = build_edge_features (edgeGeomsOf s) := rfl

theorem convertShape_face_x (s : OracleShape) :
    (convertShape s).face_x = build_face_features (faceGeomsOf s) := rfl

theorem convertShape_cp_x (s : OracleShape) :
    (convertShape s).control_point_x =
      build_control_point_features
        (collectControlPoints (edgeGeomsOf s) (faceGeomsOf s)).control_points := rfl

theorem convertShape_edge_knots (s : OracleShape) :
    (convertShape s).edge_knots = (edgeGeomsOf s).map (fun g => g.knots.getD []) := rfl

theorem convertShape_edge_mults (s : OracleShape) :
    (convertShape s).edge_multiplicities =
      (edgeGeomsOf s).map (fun g => g.multiplicities.getD []) := rfl

theorem convertShape_face_u_knots (s : OracleShape) :
    (convertShape s).face_u_knots = (faceGeomsOf s).map (fun g => g.u_knots.getD []) := rfl

theorem convertShape_face_v_knots (s : OracleShape) :
    (convertShape s).face_v_knots = (faceGeomsOf s).map (fun g => g.v_knots.getD []) := rfl

theorem convertShape_face_u_mults (s : OracleShape) :
    (convertShape s).face_u_multiplicities =
      (faceGeomsOf s).map (fun g => g.u_multiplicities.getD []) := rfl

theorem convertShape_face_v_mults (s : OracleShape) :
    (convertShape s).face_v_multiplicities =
      (faceGeomsOf s).map (fun g => g.v_multiplicities.getD []) := rfl

theorem convertShape_v2e (s : OracleShape) :
    (convertShape s).vertex_bounds_edge =
      build_edge_index (extract_topology s).vertex_to_edge := rfl

theorem convertShape_e2f (s : OracleShape) :
    (convertShape s).edge_bounds_face =
      build_edge_index (extract_topology s).edge_to_face := rfl

theorem convertShape_f2f (s : OracleShape) :
    (convertShape s).face_adjacent_face =
      build_edge_index (extract_topology s).face_to_face := rfl

theorem convertShape_cp_edge (s : OracleShape) :
    (convertShape s).cp_controls_edge =
      build_edge_index
        (collectControlPoints (edgeGeomsOf s) (faceGeomsOf s)).cp_to_edge := rfl

theorem convertShape_cp_face (s : OracleShape) :
    (convertShape s).cp_controls_face =
      build_edge_index
        (collectControlPoints (edgeGeomsOf s) (faceGeomsOf s)).cp_to_face := rfl

theorem convertShape_cp_edge_attr (s : OracleShape) :
    (convertShape s).cp_controls_edge_attr =
      (if (collectControlPoints (edgeGeomsOf s) (faceGeomsOf s)).cp_to_edge_attr.isEmpty
       then (⟨0, 1, []⟩ : TensorZ)
       else ⟨(collectControlPoints (edgeGeomsOf s) (faceGeomsOf s)).cp_to_edge_attr.length, 1,
         (collectControlPoints (edgeGeomsOf s) (faceGeomsOf s)).cp_to_edge_attr.map
           (fun a => [a.headD 0])⟩) := rfl

theorem convertShape_cp_face_attr (s : OracleShape) :
    (convertShape s).cp_controls_face_attr =
      (if (collectControlPoints (edgeGeomsOf s) (faceGeomsOf s)).cp_to_face_attr.isEmpty
       then (⟨0, 2, []⟩ : TensorZ)
       else ⟨(collectControlPoints (edgeGeomsOf s) (faceGeomsOf s)).cp_to_face_attr.length, 2,
         (collectControlPoints (edgeGeomsOf s) (faceGeomsOf s)).cp_to_face_attr⟩) := rfl

/-- C9: degenerate inputs still convert to well-typed containers of the
documented shapes — a kind with zero entities gets a 0-row feature matrix of
full fixed width and empty `(2, 0)` relation tensors; with no control points
anywhere the control-point matrix is `(0, 4)`, the control relations `(2, 0)`
and the tag tensors `(0, 1)` and `(0, 2)`; and the auxiliary knot and
multiplicity tables always hold exactly one entry per entity. -/
theorem claim_C9_empty_containers (s : OracleShape) :
    (s.vertexTrav = [] →
      (convertShape s).vertex_x = ⟨0, VERTEX_FEATURE_DIM, []⟩ ∧
      (convertShape s).vertex_bounds_edge = ⟨2, 0, [[], []]⟩) ∧
    (s.edgeTrav = [] →
      (convertShape s).edge_x = ⟨0, EDGE_FEATURE_DIM, []⟩ ∧
      (convertShape s).edge_knots = [] ∧
      (convertShape s).edge_multiplicities = [] ∧
      (convertShape s).vertex_bounds_edge = ⟨2, 0, [[], []]⟩ ∧
      (convertShape s).edge_bounds_face = ⟨2, 0, [[], []]⟩ ∧
      (convertShape s).cp_controls_edge = ⟨2, 0, [[], []]⟩ ∧
      (convertShape s).cp_controls_edge_attr = ⟨0, 1, []⟩) ∧
    (s.faceTrav = [] →
      (convertShape s).face_x = ⟨0, FACE_FEATURE_DIM, []⟩ ∧
      (convertShape s).face_u_knots = [] ∧
      (convertShape s).face_v_knots = [] ∧
      (convertShape s).face_u_multiplicities = [] ∧
      (convertShape s).face_v_multiplicities = [] ∧
      (convertShape s).edge_bounds_face = ⟨2, 0, [[], []]⟩ ∧
      (convertShape s).face_adjacent_face = ⟨2, 0, [[], []]⟩ ∧
      (convertShape s).cp_controls_face = ⟨2, 0, [[], []]⟩ ∧
      (convertShape s).cp_controls_face_attr = ⟨0, 2, []⟩) ∧
    ((∀ g ∈ edgeGeomsOf s, g.control_points.getD [] = []) →
     (∀ g ∈ faceGeomsOf s, g.control_points.getD [] = []) →
      (convertShape s).control_point_x = ⟨0, CONTROL_POINT_FEATURE_DIM, []⟩ ∧
      (convertShape s).cp_controls_edge = ⟨2, 0, [[], []]⟩ ∧
      (convertShape s).cp_controls_face = ⟨2, 0, [[], []]⟩ ∧
      (convertShape s).cp_controls_edge_attr = ⟨0, 1, []⟩ ∧
      (convertShape s).cp_controls_face_attr = ⟨0, 2, []⟩) ∧
    (convertShape s).edge_knots.length = (extract_topology s).edges.length ∧
    (convertShape s).edge_multiplicities.length = (extract_topology s).edges.length ∧
    (convertShape s).face_u_knots.length = (extract_topology s).faces.length ∧
    (convertShape s).face_v_knots.length = (extract_topology s).faces.length ∧
    (convertShape s).face_u_multiplicities.length = (extract_topology s).faces.length ∧
    (convertShape s).face_v_multiplicities.length = (extract_topology s).faces.length := by
  refine ⟨?_, ?_, ?_, ?_, ?_, ?_, ?_, ?_, ?_, ?_⟩
  · -- no vertices
    intro hv
    constructor
    · rw [convertShape_vertex_x, extract_topology_vertices, hv]
      rfl
    · rw [convertShape_v2e, extract_topology_v2e, hv]
      show build_edge_index
        (buildVertexToEdge s [] (registerAll EdgeEnt.token s.edgeTrav).2) = _
      rw [buildVertexToEdge_nil_map]
      rfl
  · -- no edges
    intro he
    have heg : edgeGeomsOf s = [] := by
      unfold edgeGeomsOf
      rw [extract_topology_edges, he]
      rfl
    refine ⟨?_, ?_, ?_, ?_, ?_, ?_, ?_⟩
    · rw [convertShape_edge_x, heg]; rfl
    · rw [convertShape_edge_knots, heg]; rfl
    · rw [convertShape_edge_mults, heg]; rfl
    · rw [convertShape_v2e, extract_topology_v2e, he]
      rfl
    · rw [convertShape_e2f, extract_topology_e2f, he]
      show build_edge_index
        (buildEdgeToFace s [] (registerAll FaceEnt.token s.faceTrav).2) = _
      rw [buildEdgeToFace_nil_map]
      rfl
    · rw [convertShape_cp_edge, heg]
      have hcpe : (collectControlPoints [] (faceGeomsOf s)).cp_to_edge = [] := by
        rw [collectControlPoints_eq]
        rfl
      rw [hcpe]
      rfl
    · rw [convertShape_cp_edge_attr, heg]
      have hcpa : (collectControlPoints [] (faceGeomsOf s)).cp_to_edge_attr = [] := by
        rw [collectControlPoints_eq]
        rfl
      rw [hcpa]
      rfl
  · -- no faces
    intro hf
    have hfg : faceGeomsOf s = [] := by
      unfold faceGeomsOf
      rw [extract_topology_faces, hf]
      rfl
    refine ⟨?_, ?_, ?_, ?_, ?_, ?_, ?_, ?_, ?_⟩
    · rw [convertShape_face_x, hfg]; rfl
    · rw [convertShape_face_u_knots, hfg]; rfl
    · rw [convertShape_face_v_knots, hfg]; rfl
    · rw [convertShape_face_u_mults, hfg]; rfl
    · rw [convertShape_face_v_mults, hfg]; rfl
    · rw [convertShape_e2f, extract_topology_e2f, hf]
      rfl
    · rw [convertShape_f2f, extract_topology_f2f, hf]
      show build_edge_index
        ((s.edgeFaceMap.foldl (fun st entry =>
          addPairsForEdge (adjacentFaceIndices [] entry.2) st) ([], [])).2) = _
      rw [foldl_addPairs_nil_map]
      rfl
    · rw [convertShape_cp_face, hfg]
      have hcpf : (collectControlPoints (edgeGeomsOf s) []).cp_to_face = [] := by
        rw [collectControlPoints_eq]
        rfl
      rw [hcpf]
      rfl
    · rw [convertShape_cp_face_attr, hfg]
      have hcpa : (collectControlPoints (edgeGeomsOf s) []).cp_to_face_attr = [] := by
        rw [collectControlPoints_eq]
        rfl
      rw [hcpa]
      rfl
  · -- no control points anywhere
    intro hE hF
    have hEcps : ∀ p ∈ (edgeGeomsOf s).enum, cpsOfEdge p.2 = [] := fun p hp =>
      hE p.2 (snd_mem_of_mem_enumFrom _ 0 p hp)
    have hFcps : ∀ p ∈ (faceGeomsOf s).enum, cpsOfFace p.2 = [] := fun p hp =>
      hF p.2 (snd_mem_of_mem_enumFrom _ 0 p hp)
    have h1 : (edgeGeomsOf s).enum.flatMap (fun p => cpsOfEdge p.2) = [] :=
      flatMap_nil_of _ _ hEcps
    have h2 : (faceGeomsOf s).enum.flatMap (fun p => cpsOfFace p.2) = [] :=
      flatMap_nil_of _ _ hFcps
    have hcc : (collectControlPoints (edgeGeomsOf s) (faceGeomsOf s)).control_points = [] := by
      rw [collectControlPoints_eq]
      show (edgeGeomsOf s).enum.flatMap (fun p => cpsOfEdge p.2) ++
        (faceGeomsOf s).enum.flatMap (fun p => cpsOfFace p.2) = []
      rw [h1, h2]
      rfl
    have hpe : (collectControlPoints (edgeGeomsOf s) (faceGeomsOf s)).cp_to_edge = [] := by
      rw [collectControlPoints_eq]
      show idxPairsFrom 0 ((edgeGeomsOf s).enum.map (fun p => (p.1, cpsOfEdge p.2))) = []
      refine idxPairsFrom_nil_chunks _ 0 ?_
      intro c hc
      rcases List.mem_map.mp hc with ⟨p, hp, rfl⟩
      exact hEcps p hp
    have hpf : (collectControlPoints (edgeGeomsOf s) (faceGeomsOf s)).cp_to_face = [] := by
      rw [collectControlPoints_eq]
      show idxPairsFrom ((edgeGeomsOf s).enum.flatMap (fun p => cpsOfEdge p.2)).length
        ((faceGeomsOf s).enum.map (fun p => (p.1, cpsOfFace p.2))) = []
      refine idxPairsFrom_nil_chunks _ _ ?_
      intro c hc
      rcases List.mem_map.mp hc with ⟨p, hp, rfl⟩
      exact hFcps p hp
    have hae : (collectControlPoints (edgeGeomsOf s) (faceGeomsOf s)).cp_to_edge_attr = [] := by
      rw [collectControlPoints_eq]
      show (edgeGeomsOf s).enum.flatMap
        (fun p => (cpsOfEdge p.2).map (fun cp => cp.index)) = []
      refine flatMap_nil_of _ _ ?_
      intro p hp
      rw [hEcps p hp]
      rfl
    have haf : (collectControlPoints (edgeGeomsOf s) (faceGeomsOf s)).cp_to_face_attr = [] := by
      rw [collectControlPoints_eq]
      show (faceGeomsOf s).enum.flatMap
        (fun p => (cpsOfFace p.2).map (fun cp => cp.index)) = []
      refine flatMap_nil_of _ _ ?_
      intro p hp
      rw [hFcps p hp]
      rfl
    refine ⟨?_, ?_, ?_, ?_, ?_⟩
    · rw [convertShape_cp_x, hcc]; rfl
    · rw [convertShape_cp_edge, hpe]; rfl
    · rw [convertShape_cp_face, hpf]; rfl
    · rw [convertShape_cp_edge_attr, hae]; rfl
    · rw [convertShape_cp_face_attr, haf]; rfl
  · rw [convertShape_edge_knots]
    simp [edgeGeomsOf, List.length_map]
  · rw [convertShape_edge_mults]
    simp [edgeGeomsOf, List.length_map]
  · rw [convertShape_face_u_knots]
    simp [faceGeomsOf, List.length_map]
  · rw [convertShape_face_v_knots]
    simp [faceGeomsOf, List.length_map]
  · rw [convertShape_face_u_mults]
    simp [faceGeomsOf, List.length_map]
  · rw [convertShape_face_v_mults]
    simp [faceGeomsOf, List.length_map]

/-- Witness for C9 on the empty shape. -/
theorem claim_C9_witness :
    emptyOracle.vertexTrav = [] ∧ emptyOracle.edgeTrav = [] ∧
    (convertShape emptyOracle).vertex_x = ⟨0, VERTEX_FEATURE_DIM, []⟩ ∧
    (convertShape emptyOracle).edge_x = ⟨0, EDGE_FEATURE_DIM, []⟩ ∧
    (convertShape emptyOracle).cp_controls_edge_attr = ⟨0, 1, []⟩ ∧
    (convertShape emptyOracle).cp_controls_face_attr = ⟨0, 2, []⟩ := by
  obtain ⟨hA, hB, _, hD, _⟩ := claim_C9_empty_containers emptyOracle
  have hE : ∀ g ∈ edgeGeomsOf emptyOracle, g.control_points.getD [] = [] := by
    intro g hg
    rw [show edgeGeomsOf emptyOracle = [] from rfl] at hg
    cases hg
  have hF : ∀ g ∈ faceGeomsOf emptyOracle, g.control_points.getD [] = [] := by
    intro g hg
    rw [show faceGeomsOf emptyOracle = [] from rfl] at hg
    cases hg
  exact ⟨rfl, rfl, (hA rfl).1, (hB rfl).1, (hD hE hF).2.2.2.1, (hD hE hF).2.2.2.2⟩

end Cq2pyg
